import Mathlib

/-!
Verification of the quick order start workflow in `tracker/views_start_order.py`.

The Python views are shallowly embedded as pure Lean functions over an explicit
database state (`DB`).  Django querysets become list operations (`filter`,
`find?`, `head?`), `timezone.now()` becomes the `now` field of the state, and
every mutating endpoint returns the new state together with its JSON response.
Strings handed in by HTTP requests are modelled as Lean `String`s; the Python
string primitives used by the views (`strip`, `upper`, `lower`, `startswith`,
`int(...)`, truthiness) are modelled by the `py*` helpers below, which operate
on the underlying character lists so that their behaviour is fully transparent.
-/

namespace Tracker

/-! ## Python string primitives -/

/-- Whitespace characters recognised by Python's `str.strip()` (the views only
ever meet spaces, tabs and line breaks). -/
def isSpaceChar (c : Char) : Bool :=
  c == ' ' || c == '\t' || c == '\n' || c == '\r'

/-- ASCII upper-casing of a single character, as done by `str.upper()`. -/
def upperChar (c : Char) : Char :=
  if 'a' ≤ c && c ≤ 'z' then Char.ofNat (c.toNat - 32) else c

/-- ASCII lower-casing of a single character, as done by `str.lower()`. -/
def lowerChar (c : Char) : Char :=
  if 'A' ≤ c && c ≤ 'Z' then Char.ofNat (c.toNat + 32) else c

/-- Model of Python `s.upper()`. -/
def pyUpper (s : String) : String := ⟨s.data.map upperChar⟩

/-- Model of Python `s.lower()`. -/
def pyLower (s : String) : String := ⟨s.data.map lowerChar⟩

/-- Drop trailing whitespace of a character list. -/
def rstripList (cs : List Char) : List Char :=
  (cs.reverse.dropWhile isSpaceChar).reverse

/-- Model of Python `s.strip()`: drop leading and trailing whitespace. -/
def pyStrip (s : String) : String :=
  ⟨rstripList (s.data.dropWhile isSpaceChar)⟩

/-- Model of Python `s.startswith(p)`. -/
def pyStartsWith (s p : String) : Bool :=
  p.data.isPrefixOf s.data

/-- Digits of a character list interpreted as a decimal numeral; `none` if the
list is empty or contains a non-digit. -/
def digitsToNat (cs : List Char) : Option Nat :=
  if cs ≠ [] && cs.all Char.isDigit then
    some (cs.foldl (fun a c => a * 10 + (c.toNat - 48)) 0)
  else none

/-- Model of Python `int(s)` on a string: surrounding whitespace is ignored and
an optional sign is allowed; any other non-digit makes the conversion raise,
which we model as `none`. -/
def pyInt (s : String) : Option Int :=
  match (pyStrip s).data with
  | '+' :: rest => (digitsToNat rest).map Int.ofNat
  | '-' :: rest => (digitsToNat rest).map (fun n => -(Int.ofNat n))
  | cs => (digitsToNat cs).map Int.ofNat

/-- Python truthiness of an optional integer (`None` and `0` are falsy). -/
def intTruthy (o : Option Int) : Bool := o.getD 0 != 0

/-- Python truthiness of an optional id value (`None` and `0` are falsy). -/
def idTruthy (o : Option Nat) : Bool := o.getD 0 != 0

/-- Python truthiness of an optional string (`None` and `''` are falsy);
`s or None` becomes `optOf s`. -/
def optOf (s : String) : Option String := if s = "" then none else some s

/-- Case-insensitive string comparison: Django's `__iexact` lookup. -/
def iexact (a b : String) : Bool := pyUpper a == pyUpper b

/-- Characters of Python `", ".join`, separator written out. -/
def joinCommaData : List (List Char) → List Char
  | [] => []
  | [x] => x
  | x :: y :: rest => x ++ ',' :: ' ' :: joinCommaData (y :: rest)

/-- Python `", ".join(l)`. -/
def joinComma (l : List String) : String := ⟨joinCommaData (l.map (fun s => s.data))⟩

/-- Python `s.split(',')`. -/
def splitComma (s : String) : List String :=
  (s.data.splitOn ',').map (fun cs => (⟨cs⟩ : String))

/-! ## Data model

Structures mirror the Django models referenced by the views (`tracker/models.py`
is not part of the sources; the field lists below are exactly the fields the
views read or write, typed as the views use them). -/

structure Customer where
  id : Nat
  branch : Nat
  full_name : String
  phone : String
  customer_type : String
  personal_subtype : Option String
  organization_name : Option String
  tax_number : Option String
  email : Option String
  address : Option String
deriving DecidableEq

structure Vehicle where
  id : Nat
  customer_id : Nat
  plate_number : String
  make : Option String
  model : Option String
  vehicle_type : Option String
deriving DecidableEq

structure Order where
  id : Nat
  order_number : String
  customer_id : Nat
  vehicle_id : Option Nat
  branch : Nat
  otype : String
  status : String
  started_at : Option Nat
  completed_at : Option Nat
  description : String
  priority : String
  estimated_duration : Option Int
  actual_duration : Option Int
  overrun_reason : Option String
  overrun_reported_at : Option Nat
  overrun_reported_by : Option Nat
  created_at : Nat
deriving DecidableEq

structure ServiceType where
  name : String
  estimated_minutes : Option Nat
  is_active : Bool
deriving DecidableEq

structure ServiceAddon where
  name : String
  estimated_minutes : Option Nat
  is_active : Bool
deriving DecidableEq

/-- The database state: the tables touched by the views, a fresh-id counter for
created rows, and the current time in minutes (`timezone.now()`). A calendar
day lasts 1440 minutes. -/
structure DB where
  customers : List Customer
  vehicles : List Vehicle
  orders : List Order
  service_types : List ServiceType
  service_addons : List ServiceAddon
  nextId : Nat
  now : Nat
deriving DecidableEq

/-- Calendar date of a timestamp (`.date()` on a datetime). -/
def dayOf (t : Nat) : Nat := t / 1440

/-- Row lookup by primary key. -/
def customerById (db : DB) (cid : Nat) : Option Customer :=
  db.customers.find? (fun c => c.id == cid)

/-- Row lookup by primary key. -/
def vehicleById (db : DB) (vid : Nat) : Option Vehicle :=
  db.vehicles.find? (fun v => v.id == vid)

/-- Branch of the customer owning a vehicle (the `customer__branch` join). -/
def vehicleBranch (db : DB) (v : Vehicle) : Option Nat :=
  (customerById db v.customer_id).map (fun c => c.branch)

/-- Well-formedness of a database state, as a decidable boolean check: all ids
are below the fresh-id counter, customer ids are unique, order ids are unique,
and vehicles reference customers by an id below the counter. -/
def wfDB (db : DB) : Bool :=
  db.customers.all (fun c => c.id < db.nextId) &&
  db.vehicles.all (fun v => v.id < db.nextId && v.customer_id < db.nextId) &&
  db.orders.all (fun o => o.id < db.nextId &&
    (match o.vehicle_id with | none => true | some vid => vid < db.nextId)) &&
  (db.customers.map (fun c => c.id)).Nodup &&
  (db.orders.map (fun o => o.id)).Nodup

/-! ## Collaborator services (not part of src/) -/

/-- Modelled from the spec: `CustomerService.create_or_get_customer` lives in
`tracker/services.py`, which is not among the sources.  Spec §3: "Uniqueness is
enforced per-branch on name+phone+org fields"; §4.1/§6: create-or-get
semantics.  The function returns an existing customer of the branch matching
full name, phone, organization name and tax number, and otherwise inserts a
new customer with the given attributes and a fresh id. -/
def create_or_get_customer (db : DB) (branch : Nat)
    (full_name phone customer_type : String)
    (personal_subtype organization_name tax_number email address : Option String) :
    Customer × DB :=
  match db.customers.find? (fun c =>
      c.branch == branch && c.full_name == full_name && c.phone == phone &&
      c.organization_name == organization_name && c.tax_number == tax_number) with
  | some c => (c, db)
  | none =>
    let c : Customer :=
      { id := db.nextId, branch := branch, full_name := full_name, phone := phone
        customer_type := customer_type, personal_subtype := personal_subtype
        organization_name := organization_name, tax_number := tax_number
        email := email, address := address }
    (c, { db with customers := db.customers ++ [c], nextId := db.nextId + 1 })

/-- Modelled from the spec: `VehicleService.create_or_get_vehicle` lives in
`tracker/services.py`, which is not among the sources.  Spec §3/§4.1: vehicles
are "created/fetched by create-or-get semantics keyed on plate" under the given
customer, plate numbers being case-insensitive.  The function returns an
existing vehicle of the customer whose plate matches case-insensitively, and
otherwise inserts a new vehicle with the given attributes and a fresh id. -/
def create_or_get_vehicle (db : DB) (customer_id : Nat) (plate_number : String)
    (make model : Option String) : Vehicle × DB :=
  match db.vehicles.find? (fun v =>
      v.customer_id == customer_id && iexact v.plate_number plate_number) with
  | some v => (v, db)
  | none =>
    let v : Vehicle :=
      { id := db.nextId, customer_id := customer_id, plate_number := plate_number
        make := make, model := model, vehicle_type := none }
    (v, { db with vehicles := db.vehicles ++ [v], nextId := db.nextId + 1 })

/-- Order numbers are generated by the `Order` model (not among the sources);
the views treat them as opaque strings, so we model them as a function of the
fresh id. -/
def orderNumberOf (id : Nat) : String := "ORD-" ++ toString id

/-! ## api_start_order -/

structure StartReq where
  plate_number : String
  order_type : String
  use_existing_customer : Bool
  existing_customer_id : Option Nat
  service_selection : List String
  estimated_duration : Option Int
deriving DecidableEq

inductive StartResp where
  /-- 400 response with an error message. -/
  | badRequest (msg : String)
  /-- 500 response (broad `except Exception` handler). -/
  | serverError
  /-- 200 response of lines 72-80: an order with status `created` already
  exists for the plate's vehicle (`existing_order: True`). -/
  | existingOrderFound (order_id : Nat) (order_number : String) (started_at : Option Nat)
  /-- 200 response of lines 84-97: a customer already owns this plate and the
  frontend must confirm reuse. -/
  | existingCustomerInfo (customer_id vehicle_id : Nat)
  /-- 201 response of line 175 after the transaction. -/
  | orderStarted (order_id : Nat) (order_number : String) (started_at : Option Nat)
deriving DecidableEq

/-- Order id carried by a successful response, if any. -/
def StartResp.orderId : StartResp → Option Nat
  | .existingOrderFound i _ _ => some i
  | .orderStarted i _ _ => some i
  | _ => none

/-- Lines 139-142: total `estimated_minutes` of the active service types and
of the addons whose name is in the selection. -/
def serviceSelectionMinutes (db : DB) (sel : List String) : Nat :=
  ((db.service_types.filter (fun s => sel.contains s.name && s.is_active)).map
      (fun s => s.estimated_minutes.getD 0)).sum +
  ((db.service_addons.filter (fun a => sel.contains a.name)).map
      (fun a => a.estimated_minutes.getD 0)).sum

/-- Latest created-status order of a vehicle: lines 65-68,
`Order.objects.filter(vehicle=..., status='created').order_by('-created_at').first()`. -/
def latestCreatedOrderFor (db : DB) (vid : Nat) : Option Order :=
  ((db.orders.filter (fun o => o.vehicle_id == some vid && o.status == "created")).insertionSort
    (fun a b => b.created_at ≤ a.created_at)).head?

/-- Lines 136-151 and 162-173: the order row inserted by `api_start_order`
(duration estimation from the selection, description, field values of
`Order.objects.create`). -/
def mkStartedOrder (db2 : DB) (user_branch : Nat) (req : StartReq) (plate : String)
    (customer_id vehicle_id : Nat) : Order :=
  let estimated :=
    if !req.service_selection.isEmpty && req.order_type == "service" then
      let total := serviceSelectionMinutes db2 req.service_selection
      if total ≠ 0 then some (Int.ofNat total) else req.estimated_duration
    else req.estimated_duration
  let desc :=
    if !req.service_selection.isEmpty then
      "Order started for " ++ plate ++ ": " ++ joinComma req.service_selection
    else "Order started for " ++ plate
  { id := db2.nextId, order_number := orderNumberOf db2.nextId
    customer_id := customer_id, vehicle_id := some vehicle_id
    branch := user_branch, otype := req.order_type, status := "created"
    started_at := some db2.now, completed_at := none, description := desc
    priority := "medium"
    estimated_duration := if intTruthy estimated then estimated else none
    actual_duration := none, overrun_reason := none
    overrun_reported_at := none, overrun_reported_by := none
    created_at := db2.now }

/-- Lines 153-173: create the order only if no created-status order exists for
this vehicle (`Order.objects.filter(vehicle=vehicle, status='created').first()`). -/
def createOrderIfAbsent (db2 : DB) (user_branch : Nat) (req : StartReq) (plate : String)
    (customer_id vehicle_id : Nat) : StartResp × DB :=
  match (db2.orders.filter (fun o =>
      o.vehicle_id == some vehicle_id && o.status == "created")).head? with
  | some o => (.orderStarted o.id o.order_number o.started_at, db2)
  | none =>
    let order := mkStartedOrder db2 user_branch req plate customer_id vehicle_id
    (.orderStarted order.id order.order_number order.started_at,
      { db2 with orders := db2.orders ++ [order], nextId := db2.nextId + 1 })

/-- Lines 101-175: the transactional part of `api_start_order` (customer and
vehicle resolution, duration estimation, duplicate check, order creation). -/
def startOrderTxn (db : DB) (user_branch : Nat) (req : StartReq) (plate : String) :
    StartResp × DB :=
  let resolved : Option (Customer × DB) :=
    if req.use_existing_customer && idTruthy req.existing_customer_id then
      -- get_object_or_404(Customer, id=..., branch=...); a miss raises Http404,
      -- swallowed by the broad handler into a 500 response
      match db.customers.find? (fun c =>
          c.id == req.existing_customer_id.getD 0 && c.branch == user_branch) with
      | some c => some (c, db)
      | none => none
    else
      some (create_or_get_customer db user_branch ("Plate " ++ plate) ("PLATE_" ++ plate)
        "personal" none none none none none)
  match resolved with
  | none => (.serverError, db)
  | some (customer, db1) =>
    let vdb := create_or_get_vehicle db1 customer.id plate none none
    createOrderIfAbsent vdb.2 user_branch req plate customer.id vdb.1.id

/-- Lines 27-181: the `api_start_order` view. -/
def api_start_order (db : DB) (user_branch : Nat) (req : StartReq) : StartResp × DB :=
  let plate := pyUpper (pyStrip req.plate_number)
  if plate = "" then (.badRequest "Vehicle plate number is required", db)
  else if req.order_type ∉ ["service", "sales", "inquiry"] then
    (.badRequest "Invalid order type", db)
  else
    match (db.vehicles.filter (fun v =>
        iexact v.plate_number plate && vehicleBranch db v == some user_branch)).head? with
    | some ev =>
      if !req.use_existing_customer && !idTruthy req.existing_customer_id then
        match latestCreatedOrderFor db ev.id with
        | some o => (.existingOrderFound o.id o.order_number o.started_at, db)
        | none => (.existingCustomerInfo ev.customer_id ev.id, db)
      else startOrderTxn db user_branch req plate
    | none => startOrderTxn db user_branch req plate

/-! ## api_check_plate -/

structure CheckResp where
  found : Bool
  customer_id : Option Nat
  vehicle_id : Option Nat
deriving DecidableEq

/-- Lines 186-202: the `api_check_plate` view. -/
def api_check_plate (db : DB) (user_branch : Nat) (plate_number : String) : CheckResp :=
  let plate := pyUpper (pyStrip plate_number)
  if plate = "" then { found := false, customer_id := none, vehicle_id := none }
  else
    match (db.vehicles.filter (fun v =>
        iexact v.plate_number plate && vehicleBranch db v == some user_branch)).head? with
    | none => { found := false, customer_id := none, vehicle_id := none }
    | some v => { found := true, customer_id := some v.customer_id, vehicle_id := some v.id }

/-! ## started_order_detail, action=update_order_details (description handling)

The stored description is a string; `update_order_details_description` below
composes the source's `split('\n')`, the line-list transformation, and the
final `'\n'.join`, each modelled explicitly. -/

/-- Line 484: does a line carry one of the recognised service headers?  The
line is kept in the description exactly when this is false. -/
def isServiceHeaderLine (l : String) : Bool :=
  pyStartsWith (pyLower (pyStrip l)) "services:" ||
  pyStartsWith (pyLower (pyStrip l)) "add-ons:" ||
  pyStartsWith (pyLower (pyStrip l)) "tire services:"

/-- Header line appended by `update_order_details` (lines 487-490). -/
def serviceHeaderFor (order_type : String) (services : List String) : String :=
  if order_type == "sales" then "Tire Services: " ++ joinComma services
  else "Services: " ++ joinComma services

/-- Lines 479-492, between the split and the join: previous header lines are
dropped, the new header is appended, and blank lines are discarded. -/
def update_order_details_desc (order_type : String) (services : List String)
    (descLines : List String) : List String :=
  if services.isEmpty then descLines
  else
    let kept := descLines.filter (fun l => !isServiceHeaderLine l)
    (kept ++ [serviceHeaderFor order_type services]).filter (fun l => pyStrip l != "")

/-- Model of Python `s.split('\n')` at the character level: splitting never
yields the empty list, and no returned piece contains the separator. -/
def splitNl : List Char → List (List Char)
  | [] => [[]]
  | c :: t =>
    if c = '\n' then [] :: splitNl t
    else
      match splitNl t with
      | [] => [[c]]
      | h :: r => (c :: h) :: r

/-- Model of Python `'\n'.join(lines)` at the character level. -/
def joinNl : List (List Char) → List Char
  | [] => []
  | [x] => x
  | x :: y :: rest => x ++ '\n' :: joinNl (y :: rest)

/-- Python `description.split('\n')` (line 484). -/
def pySplitLines (s : String) : List String :=
  (splitNl s.data).map (fun cs => (⟨cs⟩ : String))

/-- Python `'\n'.join(lines)` (line 492). -/
def pyJoinLines (ls : List String) : String :=
  ⟨joinNl (ls.map (fun l => l.data))⟩

/-- Lines 479-492 at the string level: the services part of the
`update_order_details` action on the stored description string.  The
description is split on newlines, previous header lines are dropped, the new
header is appended, blank lines are discarded, and the lines are joined back
with newlines. -/
def update_order_details_description (order_type : String) (services : List String)
    (description : String) : String :=
  if services.isEmpty then description
  else pyJoinLines (update_order_details_desc order_type services (pySplitLines description))

/-! ## api_update_order_from_extraction -/

structure ExtractionReq where
  order_id : Option Nat
  extracted_customer_type : String
  extracted_personal_subtype : String
  extracted_organization_name : String
  extracted_tax_number : String
  extracted_customer_name : String
  extracted_phone : String
  extracted_email : String
  extracted_address : String
  extracted_description : String
  extracted_estimated_duration : String
  extracted_priority : String
  extracted_services : String
  extracted_plate : String
  extracted_make : String
  extracted_model : String
deriving DecidableEq

inductive ExtractionResp where
  /-- 400 response with a field-specific error message. -/
  | validationError (msg : String)
  /-- 500 response (`Http404` of `get_object_or_404` or other exception caught
  by the broad handler). -/
  | serverError
  /-- 200 response. -/
  | updated (order_id : Nat)
deriving DecidableEq

/-- Check whether a response is a 400 validation error. -/
def ExtractionResp.isValidationError : ExtractionResp → Bool
  | .validationError _ => true
  | _ => false

/-- Lines 659-663 and 813-816: `int(estimated_duration) if estimated_duration
else None`, with conversion errors mapped to `None`. -/
def parseEstimatedDuration (s : String) : Option Int :=
  if s = "" then none else pyInt s

/-- Lines 666-671: merge the extracted services into the description text. -/
def extractionDescription (description services : String) : String :=
  if services = "" then description
  else
    let service_list := (splitComma services).map pyStrip |>.filter (fun s => s ≠ "")
    if service_list.isEmpty then description
    else
      let services_text := "Services: " ++ joinComma service_list
      if description ≠ "" then description ++ "\n" ++ services_text else services_text

/-- Lines 622-643 (and identically 779-800): customer resolution of the
extraction and modal views — personal customers carry the subtype, the others
the organization fields. -/
def resolveExtractionCustomer (db : DB) (b : Nat)
    (customer_type customer_name phone personal_subtype organization_name tax_number
      email address : String) : Customer × DB :=
  if customer_type = "personal" then
    create_or_get_customer db b customer_name phone customer_type
      (some personal_subtype) none none (optOf email) (optOf address)
  else
    create_or_get_customer db b customer_name phone customer_type
      none (some organization_name) (some tax_number) (optOf email) (optOf address)

/-- Lines 648-657 (and 802-810): vehicle resolution when a plate is given;
without a plate the previous vehicle reference is kept (`none` for the modal
view). -/
def extractionVehicleStep (db1 : DB) (cid : Nat) (plate vehicle_make vehicle_model : String)
    (old_vid : Option Nat) : Option Nat × DB :=
  if plate ≠ "" then
    let x := create_or_get_vehicle db1 cid plate (optOf vehicle_make) (optOf vehicle_model)
    (some x.1.id, x.2)
  else (old_vid, db1)

/-- Lines 645-679: the field updates applied to the fetched order. -/
def updatedExtractionOrder (order : Order) (cid : Nat) (vid : Option Nat)
    (description priority estimated_duration services : String) : Order :=
  { order with
      customer_id := cid
      vehicle_id := vid
      description := extractionDescription description services
      priority := if priority ∈ ["low", "medium", "high", "urgent"]
        then priority else "medium"
      estimated_duration := if intTruthy (parseEstimatedDuration estimated_duration)
        then parseEstimatedDuration estimated_duration else order.estimated_duration }

/-- Lines 531-693: the `api_update_order_from_extraction` view. -/
def api_update_order_from_extraction (db : DB) (user_branch : Nat) (r : ExtractionReq) :
    ExtractionResp × DB :=
  match r.order_id with
  | none => (.validationError "Order ID is required", db)
  | some order_id =>
    match db.orders.find? (fun o => o.id == order_id && o.branch == user_branch) with
    | none => (.serverError, db)  -- Http404 caught by the broad handler → 500
    | some order =>
      let customer_type := pyStrip r.extracted_customer_type
      let personal_subtype := pyStrip r.extracted_personal_subtype
      let organization_name := pyStrip r.extracted_organization_name
      let tax_number := pyStrip r.extracted_tax_number
      let customer_name := pyStrip r.extracted_customer_name
      let phone := pyStrip r.extracted_phone
      let email := pyStrip r.extracted_email
      let address := pyStrip r.extracted_address
      let description := pyStrip r.extracted_description
      let estimated_duration := pyStrip r.extracted_estimated_duration
      let priority := pyStrip r.extracted_priority
      let services := pyStrip r.extracted_services
      let plate_number := pyUpper (pyStrip r.extracted_plate)
      let vehicle_make := pyStrip r.extracted_make
      let vehicle_model := pyStrip r.extracted_model
      if customer_name = "" ∨ phone = "" then
        (.validationError "Customer name and phone are required", db)
      else if customer_type = "" then
        (.validationError "Customer type is required", db)
      else if customer_type ∉ ["personal", "company", "government", "ngo"] then
        (.validationError "Invalid customer type", db)
      else if customer_type = "personal" ∧ personal_subtype = "" then
        (.validationError "Personal subtype is required for personal customers", db)
      else if customer_type ∈ ["company", "government", "ngo"] ∧
          (organization_name = "" ∨ tax_number = "") then
        (.validationError "Organization name and tax number are required", db)
      else
        let cdb := resolveExtractionCustomer db user_branch customer_type customer_name
          phone personal_subtype organization_name tax_number email address
        let vdb := extractionVehicleStep cdb.2 cdb.1.id plate_number vehicle_make
          vehicle_model order.vehicle_id
        let updated := updatedExtractionOrder order cdb.1.id vdb.1 description priority
          estimated_duration services
        (.updated order.id,
          { vdb.2 with orders := vdb.2.orders.map (fun o =>
              if o.id == order_id && o.branch == user_branch then updated else o) })

/-! ## api_create_order_from_modal -/

structure ModalReq where
  order_type : String
  customer_type : String
  personal_subtype : String
  organization_name : String
  tax_number : String
  customer_name : String
  phone : String
  email : String
  address : String
  description : String
  estimated_duration : String
  priority : String
  plate_number : String
  vehicle_make : String
  vehicle_model : String
deriving DecidableEq

inductive ModalResp where
  /-- 400 response with a field-specific error message. -/
  | validationError (msg : String)
  /-- 201 response. -/
  | created (order_id : Nat)
deriving DecidableEq

/-- Lines 812-829: the order row inserted by `api_create_order_from_modal`. -/
def mkModalOrder (db2 : DB) (b : Nat) (vid : Option Nat) (cid : Nat)
    (order_type customer_name description estimated_duration priority : String) : Order :=
  { id := db2.nextId, order_number := orderNumberOf db2.nextId
    customer_id := cid, vehicle_id := vid
    branch := b, otype := order_type, status := "created"
    started_at := some db2.now, completed_at := none
    description := if description ≠ "" then description
      else "Order for " ++ customer_name
    priority := if priority ∈ ["low", "medium", "high", "urgent"]
      then priority else "medium"
    estimated_duration := parseEstimatedDuration estimated_duration
    actual_duration := none, overrun_reason := none
    overrun_reported_at := none, overrun_reported_by := none
    created_at := db2.now }

/-- Lines 698-845: the `api_create_order_from_modal` view. -/
def api_create_order_from_modal (db : DB) (user_branch : Nat) (r : ModalReq) :
    ModalResp × DB :=
  let order_type := pyStrip r.order_type
  let customer_type := pyStrip r.customer_type
  let personal_subtype := pyStrip r.personal_subtype
  let organization_name := pyStrip r.organization_name
  let tax_number := pyStrip r.tax_number
  let customer_name := pyStrip r.customer_name
  let phone := pyStrip r.phone
  let email := pyStrip r.email
  let address := pyStrip r.address
  let description := pyStrip r.description
  let estimated_duration := pyStrip r.estimated_duration
  let priority := pyStrip r.priority
  let plate_number := pyUpper (pyStrip r.plate_number)
  let vehicle_make := pyStrip r.vehicle_make
  let vehicle_model := pyStrip r.vehicle_model
  if customer_name = "" ∨ phone = "" then
    (.validationError "Customer name and phone are required", db)
  else if order_type ∉ ["service", "sales", "inquiry", "upload"] then
    (.validationError "Invalid order type", db)
  else if customer_type ∉ ["personal", "company", "government", "ngo"] then
    (.validationError "Invalid customer type", db)
  else if customer_type = "personal" ∧ personal_subtype = "" then
    (.validationError "Personal subtype is required for personal customers", db)
  else if customer_type ∈ ["company", "government", "ngo"] ∧
      (organization_name = "" ∨ tax_number = "") then
    (.validationError "Organization name and tax number are required", db)
  else
    let cdb := resolveExtractionCustomer db user_branch customer_type customer_name
      phone personal_subtype organization_name tax_number email address
    let vdb := extractionVehicleStep cdb.2 cdb.1.id plate_number vehicle_make
      vehicle_model none
    let order := mkModalOrder vdb.2 user_branch vdb.1 cdb.1.id order_type customer_name
      description estimated_duration priority
    (.created order.id,
      { vdb.2 with orders := vdb.2.orders ++ [order], nextId := vdb.2.nextId + 1 })

/-! ## api_record_overrun_reason -/

inductive OverrunResp where
  /-- 400 response: missing reason. -/
  | badRequest
  /-- 500 response (`Http404` caught by the broad handler). -/
  | serverError
  /-- 200 response `{success: true}`. -/
  | ok
deriving DecidableEq

/-- Lines 848-872: the `api_record_overrun_reason` view.  `save(update_fields=
['overrun_reason','overrun_reported_at','overrun_reported_by'])` writes exactly
those three columns of the fetched order. -/
def api_record_overrun_reason (db : DB) (user_branch user_id order_id : Nat)
    (rawReason : String) : OverrunResp × DB :=
  let reason := pyStrip rawReason
  if reason = "" then (.badRequest, db)
  else
    match db.orders.find? (fun o => o.id == order_id && o.branch == user_branch) with
    | none => (.serverError, db)
    | some _ =>
      (.ok, { db with orders := db.orders.map (fun o =>
          if o.id == order_id && o.branch == user_branch then
            { o with overrun_reason := some reason
                     overrun_reported_at := some db.now
                     overrun_reported_by := some user_id }
          else o) })

/-! ## overrun_reports -/

/-- Lines 900-905: per-record delay minutes with Python truthiness on both
durations. -/
def delayOf (o : Order) : Option Int :=
  if intTruthy o.actual_duration && intTruthy o.estimated_duration then
    some (max 0 (o.actual_duration.getD 0 - o.estimated_duration.getD 0))
  else none

structure OverrunRecord where
  id : Nat
  order_number : String
  overrun_reason : Option String
  overrun_reported_by : Option Nat
  overrun_reported_at : Option Nat
  delay_minutes : Option Int
deriving DecidableEq

/-- Lines 906-913: the dictionary built for each overrun order. -/
def recordOf (o : Order) : OverrunRecord :=
  { id := o.id, order_number := o.order_number, overrun_reason := o.overrun_reason
    overrun_reported_by := o.overrun_reported_by
    overrun_reported_at := o.overrun_reported_at
    delay_minutes := delayOf o }

/-- Lines 885 and 898-913: the `recent_overruns` list of the overrun report,
sorted by report time descending and truncated to 50 records. -/
def recent_overruns (db : DB) (user_branch : Nat) : List OverrunRecord :=
  (((db.orders.filter (fun o => o.branch == user_branch && o.overrun_reason.isSome)).insertionSort
      (fun a b => b.overrun_reported_at.getD 0 ≤ a.overrun_reported_at.getD 0)).take 50).map
    recordOf

/-! ## started-orders KPIs -/

/-- Filter of lines 950-955: created orders of the branch started today with a
vehicle. -/
def startedTodayWithVehicle (db : DB) (branch : Nat) (o : Order) : Bool :=
  o.branch == branch && o.status == "created" &&
  o.started_at.map dayOf == some (dayOf db.now) && o.vehicle_id.isSome

/-- Plate reached through the `vehicle__plate_number` join (dangling vehicle
ids drop out of the join). -/
def plateOf (db : DB) (o : Order) : Option String :=
  o.vehicle_id.bind (fun vid => (vehicleById db vid).map (fun v => v.plate_number))

/-- Lines 948-956 (and identically 302-310): number of groups with at least two
rows when the created orders of the branch started today are grouped by
`vehicle__plate_number`. -/
def repeated_vehicles_today (db : DB) (branch : Nat) : Nat :=
  let plates := (db.orders.filter (startedTodayWithVehicle db branch)).filterMap (plateOf db)
  ((plates.toFinset).filter (fun p => 2 ≤ plates.count p)).card

/-! ## Helper lemmas about the string primitives -/

theorem charOfNat_toNat (n : Nat) (h : n.isValidChar) : (Char.ofNat n).toNat = n := by
  simp [Char.ofNat, h, Char.ofNatAux, Char.toNat, UInt32.toNat, BitVec.toNat_ofNatLt]

theorem upperCond_iff (c : Char) :
    ('a' ≤ c && c ≤ 'z') = true ↔ (97 ≤ c.toNat ∧ c.toNat ≤ 122) := by
  rw [Bool.and_eq_true, decide_eq_true_iff, decide_eq_true_iff]
  exact Iff.rfl

theorem upperChar_idem (c : Char) : upperChar (upperChar c) = upperChar c := by
  unfold upperChar
  by_cases h : ('a' ≤ c && c ≤ 'z') = true
  · rw [if_pos h]
    have hn : (97 ≤ c.toNat ∧ c.toNat ≤ 122) := (upperCond_iff c).mp h
    have hv : (c.toNat - 32).isValidChar := by left; omega
    have ht : (Char.ofNat (c.toNat - 32)).toNat = c.toNat - 32 := charOfNat_toNat _ hv
    have hne : ¬ ('a' ≤ Char.ofNat (c.toNat - 32) && Char.ofNat (c.toNat - 32) ≤ 'z') = true := by
      rw [upperCond_iff, ht]
      omega
    rw [if_neg hne]
  · rw [if_neg h, if_neg h]

theorem pyUpper_idem (s : String) : pyUpper (pyUpper s) = pyUpper s := by
  unfold pyUpper
  rw [List.map_map]
  exact congrArg String.mk (List.map_congr_left (fun a _ => upperChar_idem a))

theorem string_eq_empty_iff (s : String) : s = "" ↔ s.data = [] := by
  constructor
  · intro h
    subst h
    rfl
  · intro h
    cases s
    simp only at h
    rw [h]

theorem pyUpper_eq_empty_iff (s : String) : pyUpper s = "" ↔ s = "" := by
  rw [string_eq_empty_iff, string_eq_empty_iff]
  unfold pyUpper
  simp

theorem iexact_self (s : String) : iexact s s = true := by
  simp [iexact]

/-! ## Concrete fixtures used by witnesses and counterexamples -/

/-- Base order literal for concrete states. -/
def baseOrder : Order :=
  { id := 1, order_number := "ORD-1", customer_id := 1, vehicle_id := none
    branch := 1, otype := "service", status := "created", started_at := some 0
    completed_at := none, description := "", priority := "medium"
    estimated_duration := none, actual_duration := none, overrun_reason := none
    overrun_reported_at := none, overrun_reported_by := none, created_at := 0 }

/-- Base customer literal for concrete states. -/
def baseCustomer : Customer :=
  { id := 1, branch := 1, full_name := "John", phone := "555"
    customer_type := "personal", personal_subtype := some "owner"
    organization_name := none, tax_number := none, email := none, address := none }

/-- Base vehicle literal for concrete states. -/
def baseVehicle : Vehicle :=
  { id := 2, customer_id := 1, plate_number := "ABC", make := none, model := none
    vehicle_type := none }

/-- Empty database. -/
def emptyDB : DB :=
  { customers := [], vehicles := [], orders := [], service_types := []
    service_addons := [], nextId := 1, now := 0 }

/-! ## C6: overrun delay computation -/

/-- Definition following the claim's words, for comparison with the source's
`delayOf`: `max(0, actual − estimated)` whenever both durations are present
(i.e. not `None`), `None` when either is missing. -/
def claimDelay (a e : Option Int) : Option Int :=
  if a.isSome && e.isSome then some (max 0 (a.getD 0 - e.getD 0)) else none

/-- C6 counterexample: an order whose `actual_duration` is present but equal to
0 and whose `estimated_duration` is 60.  Both operands are present, so the
claim demands `delay_minutes = max(0, 0 - 60) = 0`; the code's truthiness test
(`if o.actual_duration and o.estimated_duration`) treats the 0 as missing and
yields `None`. -/
theorem delay_zero_actual_counterexample :
    delayOf { baseOrder with actual_duration := some 0, estimated_duration := some 60 } = none ∧
    claimDelay (some 0) (some 60) = some 0 ∧
    (recordOf { baseOrder with actual_duration := some 0, estimated_duration := some 60 }).delay_minutes ≠
      claimDelay (some 0) (some 60) := by
  refine ⟨rfl, rfl, ?_⟩
  decide

/-- C6 (amended): for every order in the overrun report, the per-record
`delay_minutes` equals `max(0, actual_duration − estimated_duration)` when both
durations are present and nonzero, and is `None` when either operand is missing
or zero; in particular `actual_duration=90, estimated_duration=60` gives 30 and
a missing `actual_duration` gives `None`. -/
theorem recordOf_delay_minutes (o : Order) :
    (∀ a : Int, o.actual_duration = some a → a ≠ 0 →
      ∀ e : Int, o.estimated_duration = some e → e ≠ 0 →
        (recordOf o).delay_minutes = some (max 0 (a - e))) ∧
    ((o.actual_duration = none ∨ o.actual_duration = some 0 ∨
      o.estimated_duration = none ∨ o.estimated_duration = some 0) →
        (recordOf o).delay_minutes = none) := by
  constructor
  · intro a ha ha0 e he he0
    simp [recordOf, delayOf, intTruthy, ha, he, ha0, he0]
  · intro h
    rcases h with h | h | h | h <;> simp [recordOf, delayOf, intTruthy, h]

/-- C6 witness: the amended theorem applied at a 90/60 order and at an order
with no `actual_duration`. -/
theorem recordOf_delay_minutes_witness :
    (recordOf { baseOrder with actual_duration := some 90, estimated_duration := some 60 }).delay_minutes =
      some (max 0 (90 - 60 : Int)) ∧
    (recordOf { baseOrder with actual_duration := none, estimated_duration := some 60 }).delay_minutes =
      none :=
  ⟨(recordOf_delay_minutes _).1 90 rfl (by decide) 60 rfl (by decide),
   (recordOf_delay_minutes _).2 (Or.inl rfl)⟩

/-! ## C5: recording an overrun reason -/

/-- C5 counterexample: the reason string `" "` is non-empty, so the claim
demands that `overrun_reason` be set to it; the view strips the reason first
(line 858), finds it empty, answers 400 and leaves the order untouched. -/
theorem record_overrun_blank_reason_counterexample :
    (api_record_overrun_reason { emptyDB with orders := [baseOrder], nextId := 2 } 1 9 1 " ").1 =
      .badRequest ∧
    (api_record_overrun_reason { emptyDB with orders := [baseOrder], nextId := 2 } 1 9 1 " ").2 =
      { emptyDB with orders := [baseOrder], nextId := 2 } ∧
    ((api_record_overrun_reason { emptyDB with orders := [baseOrder], nextId := 2 } 1 9 1 " ").2.orders.map
      (fun o => o.overrun_reason)) = [none] ∧
    (" " : String) ≠ "" := by
  refine ⟨?_, ?_, ?_, ?_⟩ <;> decide

/-- C5 (amended): for every order in the user's branch and every reason string
that is non-blank after stripping surrounding whitespace,
`api_record_overrun_reason` sets exactly `overrun_reason` (to the stripped
reason), `overrun_reported_at` (to the current time) and `overrun_reported_by`
(to the requesting user) on that order, and leaves every other field — in
particular the status — of every order unchanged. -/
theorem api_record_overrun_reason_frame (db : DB) (b uid oid : Nat) (reason : String)
    (hreason : pyStrip reason ≠ "")
    (hfound : (db.orders.find? (fun o => o.id == oid && o.branch == b)).isSome) :
    (api_record_overrun_reason db b uid oid reason).1 = .ok ∧
    List.Forall₂ (fun o o' =>
      o'.status = o.status ∧
      (o.id = oid ∧ o.branch = b →
        o' = { o with overrun_reason := some (pyStrip reason)
                      overrun_reported_at := some db.now
                      overrun_reported_by := some uid }) ∧
      (¬(o.id = oid ∧ o.branch = b) → o' = o))
      db.orders (api_record_overrun_reason db b uid oid reason).2.orders := by
  unfold api_record_overrun_reason
  rw [if_neg hreason]
  obtain ⟨o0, ho0⟩ := Option.isSome_iff_exists.mp hfound
  rw [ho0]
  refine ⟨rfl, ?_⟩
  simp only
  rw [List.forall₂_map_right_iff]
  rw [List.forall₂_same]
  intro o _
  by_cases h : (o.id == oid && o.branch == b) = true
  · rw [if_pos h]
    rw [Bool.and_eq_true, beq_iff_eq, beq_iff_eq] at h
    exact ⟨rfl, fun _ => rfl, fun hn => absurd h hn⟩
  · rw [if_neg h]
    rw [Bool.and_eq_true, beq_iff_eq, beq_iff_eq] at h
    exact ⟨rfl, fun hp => absurd hp h, fun _ => rfl⟩

/-- C5 witness: the frame theorem applied to a one-order database with the
reason `"Late parts"`. -/
theorem api_record_overrun_reason_frame_witness :
    (api_record_overrun_reason { emptyDB with orders := [baseOrder], nextId := 2 } 1 9 1
        "Late parts").1 = .ok ∧
    List.Forall₂ (fun o o' =>
      o'.status = o.status ∧
      (o.id = 1 ∧ o.branch = 1 →
        o' = { o with overrun_reason := some (pyStrip "Late parts")
                      overrun_reported_at := some ({ emptyDB with orders := [baseOrder], nextId := 2 } : DB).now
                      overrun_reported_by := some 9 }) ∧
      (¬(o.id = 1 ∧ o.branch = 1) → o' = o))
      ({ emptyDB with orders := [baseOrder], nextId := 2 } : DB).orders
      (api_record_overrun_reason { emptyDB with orders := [baseOrder], nextId := 2 } 1 9 1
        "Late parts").2.orders :=
  api_record_overrun_reason_frame _ 1 9 1 "Late parts" (by decide) (by decide)

/-! ## C3: plate lookup -/

/-- C3 counterexample: the query `" abc"` does not equal the stored plate
`"ABC"` up to letter case (they differ by the leading space), yet
`api_check_plate` answers `found=true` because line 190 strips the query
before the case-insensitive lookup. -/
theorem check_plate_whitespace_counterexample :
    (api_check_plate { emptyDB with customers := [baseCustomer], vehicles := [baseVehicle], nextId := 3 }
      1 " abc").found = true ∧
    (∀ v ∈ ({ emptyDB with customers := [baseCustomer], vehicles := [baseVehicle], nextId := 3 } : DB).vehicles,
      ¬ pyUpper v.plate_number = pyUpper " abc") := by
  constructor
  · decide
  · decide

/-- C3 (amended): `api_check_plate` answers `found=true` if and only if the
query is non-blank after stripping surrounding whitespace and some vehicle of
the database has a plate number equal to the stripped query up to letter case
with a customer in the requesting user's branch; in particular a vehicle whose
customer is in a different branch always yields `found=false`. -/
theorem api_check_plate_found_iff (db : DB) (b : Nat) (raw : String) :
    (api_check_plate db b raw).found = true ↔
      (pyStrip raw ≠ "" ∧ ∃ v ∈ db.vehicles,
        pyUpper v.plate_number = pyUpper (pyStrip raw) ∧ vehicleBranch db v = some b) := by
  have hpred : ∀ v : Vehicle,
      (iexact v.plate_number (pyUpper (pyStrip raw)) &&
        (vehicleBranch db v == some b)) = true ↔
      (pyUpper v.plate_number = pyUpper (pyStrip raw) ∧ vehicleBranch db v = some b) := by
    intro v
    rw [Bool.and_eq_true, beq_iff_eq]
    unfold iexact
    rw [beq_iff_eq, pyUpper_idem]
  unfold api_check_plate
  by_cases hp : pyUpper (pyStrip raw) = ""
  · rw [if_pos hp]
    simp only
    rw [pyUpper_eq_empty_iff] at hp
    simp [hp]
  · rw [if_neg hp]
    rw [pyUpper_eq_empty_iff] at hp
    cases hh : (db.vehicles.filter (fun v =>
        iexact v.plate_number (pyUpper (pyStrip raw)) &&
          (vehicleBranch db v == some b))).head? with
    | none =>
      simp only
      rw [List.head?_eq_none_iff] at hh
      have hno : ∀ v ∈ db.vehicles,
          ¬ (pyUpper v.plate_number = pyUpper (pyStrip raw) ∧ vehicleBranch db v = some b) := by
        intro v hv hcontra
        have : v ∈ (db.vehicles.filter (fun v =>
            iexact v.plate_number (pyUpper (pyStrip raw)) &&
              (vehicleBranch db v == some b))) :=
          List.mem_filter.mpr ⟨hv, (hpred v).mpr hcontra⟩
        rw [hh] at this
        exact absurd this (List.not_mem_nil v)
      constructor
      · intro hfalse
        exact absurd hfalse (by decide)
      · intro ⟨_, v, hv, hrest⟩
        exact absurd hrest (hno v hv)
    | some v =>
      simp only
      have hmem : v ∈ (db.vehicles.filter (fun v =>
          iexact v.plate_number (pyUpper (pyStrip raw)) &&
            (vehicleBranch db v == some b))) := by
        cases hl : (db.vehicles.filter (fun v =>
            iexact v.plate_number (pyUpper (pyStrip raw)) &&
              (vehicleBranch db v == some b))) with
        | nil =>
          rw [hl] at hh
          simp at hh
        | cons a t =>
          rw [hl] at hh
          simp only [List.head?] at hh
          cases hh
          exact List.mem_cons_self _ _
      constructor
      · intro _
        refine ⟨hp, v, (List.mem_filter.mp hmem).1, (hpred v).mp (List.mem_filter.mp hmem).2⟩
      · intro _
        trivial

/-! ## C9: service header lines of the description -/

theorem dropWhile_append_cons {α : Type} (p : α → Bool) (xs : List α) (y : α) (t : List α)
    (hy : p y = false) :
    List.dropWhile p (xs ++ y :: t) = List.dropWhile p xs ++ y :: t := by
  induction xs with
  | nil => simp [List.dropWhile_cons, hy]
  | cons x xs ih =>
    by_cases hx : p x = true
    · simp only [List.cons_append, List.dropWhile_cons, hx, if_true, ih]
    · simp only [List.cons_append, List.dropWhile_cons, hx, if_false,
        Bool.false_eq_true, List.nil_append]

theorem rstripList_append_anchor (q : List Char) (b : Char) (xs : List Char)
    (hb : isSpaceChar b = false) :
    rstripList ((q ++ [b]) ++ xs) = (q ++ [b]) ++ rstripList xs := by
  unfold rstripList
  rw [List.reverse_append, List.reverse_append]
  simp only [List.reverse_cons, List.reverse_nil, List.nil_append, List.singleton_append]
  rw [dropWhile_append_cons _ _ _ _ hb]
  rw [List.reverse_append, List.reverse_cons, List.reverse_reverse]

/-- Stripping a string that starts with a non-space character and whose prefix
`a :: q ++ [b]` ends in a non-space character keeps that prefix and right-strips
the remainder. -/
theorem pyStrip_anchor (a : Char) (q : List Char) (b : Char) (xs : List Char)
    (ha : isSpaceChar a = false) (hb : isSpaceChar b = false) :
    pyStrip ⟨(a :: q ++ [b]) ++ xs⟩ = ⟨(a :: q ++ [b]) ++ rstripList xs⟩ := by
  unfold pyStrip
  simp only [List.cons_append, List.dropWhile_cons, ha, Bool.false_eq_true, if_false]
  have := rstripList_append_anchor (a :: q) b xs hb
  simp only [List.cons_append] at this
  rw [this]

theorem string_data_ext {s t : String} (h : s.data = t.data) : s = t := by
  cases s
  cases t
  simp only at h
  rw [h]

theorem header_split (lit : String) (core : List Char) (x : String)
    (hlit : lit.data = core ++ [' ']) :
    lit ++ x = (⟨core ++ (' ' :: x.data)⟩ : String) := by
  apply string_data_ext
  rw [String.data_append, hlit, List.append_assoc]
  rfl

theorem strip_header (a : Char) (q : List Char) (b : Char) (x : String)
    (ha : isSpaceChar a = false) (hb : isSpaceChar b = false) (lit : String)
    (hlit : lit.data = (a :: q ++ [b]) ++ [' ']) :
    pyStrip (lit ++ x) = ⟨(a :: q ++ [b]) ++ rstripList (' ' :: x.data)⟩ := by
  rw [header_split lit _ x hlit]
  exact pyStrip_anchor a q b (' ' :: x.data) ha hb

theorem lower_strip_header (a : Char) (q : List Char) (b : Char) (x : String)
    (ha : isSpaceChar a = false) (hb : isSpaceChar b = false) (lit : String)
    (hlit : lit.data = (a :: q ++ [b]) ++ [' ']) :
    pyLower (pyStrip (lit ++ x)) =
      ⟨List.map lowerChar (a :: q ++ [b]) ++
        List.map lowerChar (rstripList (' ' :: x.data))⟩ := by
  rw [strip_header a q b x ha hb lit hlit]
  exact congrArg String.mk (List.map_append ..)

theorem isServiceHeaderLine_header (order_type : String) (services : List String) :
    isServiceHeaderLine (serviceHeaderFor order_type services) = true := by
  unfold serviceHeaderFor
  by_cases h : (order_type == "sales") = true
  · rw [if_pos h]
    have hlow := lower_strip_header 'T' "ire Services".data ':' (joinComma services)
      (by decide) (by decide) "Tire Services: " (by decide)
    have hmap : List.map lowerChar ('T' :: "ire Services".data ++ [':']) =
        "tire services:".data := by decide
    rw [hmap] at hlow
    unfold isServiceHeaderLine
    rw [hlow]
    have hC : pyStartsWith
        ⟨"tire services:".data ++
          List.map lowerChar (rstripList (' ' :: (joinComma services).data))⟩
        "tire services:" = true := by
      unfold pyStartsWith
      rw [List.isPrefixOf_iff_prefix]
      exact List.prefix_append _ _
    rw [hC]
    simp
  · rw [if_neg h]
    have hlow := lower_strip_header 'S' "ervices".data ':' (joinComma services)
      (by decide) (by decide) "Services: " (by decide)
    have hmap : List.map lowerChar ('S' :: "ervices".data ++ [':']) =
        "services:".data := by decide
    rw [hmap] at hlow
    unfold isServiceHeaderLine
    rw [hlow]
    have hC : pyStartsWith
        ⟨"services:".data ++
          List.map lowerChar (rstripList (' ' :: (joinComma services).data))⟩
        "services:" = true := by
      unfold pyStartsWith
      rw [List.isPrefixOf_iff_prefix]
      exact List.prefix_append _ _
    rw [hC]
    simp

theorem pyStrip_header_ne (order_type : String) (services : List String) :
    (pyStrip (serviceHeaderFor order_type services) != "") = true := by
  rw [bne_iff_ne]
  unfold serviceHeaderFor
  by_cases h : (order_type == "sales") = true
  · rw [if_pos h]
    rw [strip_header 'T' "ire Services".data ':' (joinComma services)
      (by decide) (by decide) "Tire Services: " (by decide)]
    intro hcontra
    rw [string_eq_empty_iff] at hcontra
    simp at hcontra
  · rw [if_neg h]
    rw [strip_header 'S' "ervices".data ':' (joinComma services)
      (by decide) (by decide) "Services: " (by decide)]
    intro hcontra
    rw [string_eq_empty_iff] at hcontra
    simp at hcontra

theorem kept_no_header (L : List String) :
    ((L.filter (fun l => !isServiceHeaderLine l)).filter
      (fun l => pyStrip l != "")).filter isServiceHeaderLine = [] := by
  rw [List.filter_eq_nil_iff]
  intro a ha
  have h2 : (!isServiceHeaderLine a) = true :=
    (List.mem_filter.mp (List.mem_filter.mp ha).1).2
  simp only [Bool.not_eq_true'] at h2
  simp [h2]

theorem kept_all_nonheader (L : List String) :
    ((L.filter (fun l => !isServiceHeaderLine l)).filter
      (fun l => pyStrip l != "")).filter (fun l => !isServiceHeaderLine l) =
    (L.filter (fun l => !isServiceHeaderLine l)).filter (fun l => pyStrip l != "") := by
  rw [List.filter_eq_self]
  intro a ha
  exact (List.mem_filter.mp (List.mem_filter.mp ha).1).2

theorem kept_all_nonblank (L : List String) :
    ((L.filter (fun l => !isServiceHeaderLine l)).filter
      (fun l => pyStrip l != "")).filter (fun l => pyStrip l != "") =
    (L.filter (fun l => !isServiceHeaderLine l)).filter (fun l => pyStrip l != "") := by
  rw [List.filter_eq_self]
  intro a ha
  exact (List.mem_filter.mp ha).2

theorem filter_nb_header (t : String) (services : List String) :
    List.filter (fun l => pyStrip l != "") [serviceHeaderFor t services] =
      [serviceHeaderFor t services] := by
  simp [List.filter_cons, pyStrip_header_ne t services]

theorem filter_header_header (t : String) (services : List String) :
    List.filter isServiceHeaderLine [serviceHeaderFor t services] =
      [serviceHeaderFor t services] := by
  simp [List.filter_cons, isServiceHeaderLine_header t services]

theorem filter_nonheader_header (t : String) (services : List String) :
    List.filter (fun l => !isServiceHeaderLine l) [serviceHeaderFor t services] = [] := by
  simp [List.filter_cons, isServiceHeaderLine_header t services]

theorem update_order_details_desc_eq (t : String) (services L : List String)
    (h : services ≠ []) :
    update_order_details_desc t services L =
      ((L.filter (fun l => !isServiceHeaderLine l)).filter (fun l => pyStrip l != "")) ++
        [serviceHeaderFor t services] := by
  have hie : services.isEmpty = false := List.isEmpty_eq_false.mpr h
  unfold update_order_details_desc
  rw [hie]
  simp only [Bool.false_eq_true, if_false, List.filter_append]
  rw [filter_nb_header]

/-- Line-level core of the services update: the transformed line list contains
exactly one header line, ends with the new header, and is a fixed point of the
transformation. -/
theorem update_order_details_desc_services (t : String) (services L : List String)
    (h : services ≠ []) :
    ((update_order_details_desc t services L).filter isServiceHeaderLine).length = 1 ∧
    (update_order_details_desc t services L).getLast? =
      some (serviceHeaderFor t services) ∧
    update_order_details_desc t services (update_order_details_desc t services L) =
      update_order_details_desc t services L := by
  refine ⟨?_, ?_, ?_⟩
  · rw [update_order_details_desc_eq t services L h, List.filter_append,
      kept_no_header, filter_header_header]
    rfl
  · rw [update_order_details_desc_eq t services L h]
    exact List.getLast?_concat _
  · rw [update_order_details_desc_eq t services
      (update_order_details_desc t services L) h]
    rw [update_order_details_desc_eq t services L h]
    rw [List.filter_append, filter_nonheader_header, List.append_nil]
    rw [kept_all_nonheader]
    rw [kept_all_nonblank]

theorem splitNl_ne_nil (cs : List Char) : splitNl cs ≠ [] := by
  induction cs with
  | nil => simp [splitNl]
  | cons c t ih =>
    by_cases h : c = '\n'
    · simp [splitNl, h]
    · simp only [splitNl, h, if_false]
      cases hsp : splitNl t with
      | nil => exact absurd hsp ih
      | cons a r => simp

theorem splitNl_no_newline (cs : List Char) : ∀ l ∈ splitNl cs, ¬ '\n' ∈ l := by
  induction cs with
  | nil =>
    intro l hl
    rw [show splitNl [] = [[]] from rfl, List.mem_singleton] at hl
    subst hl
    simp
  | cons c t ih =>
    intro l hl
    by_cases h : c = '\n'
    · rw [show splitNl (c :: t) = if c = '\n' then [] :: splitNl t else
          match splitNl t with
          | [] => [[c]]
          | h :: r => (c :: h) :: r from rfl, if_pos h] at hl
      rcases List.mem_cons.mp hl with rfl | hr
      · simp
      · exact ih l hr
    · rw [show splitNl (c :: t) = if c = '\n' then [] :: splitNl t else
          match splitNl t with
          | [] => [[c]]
          | h :: r => (c :: h) :: r from rfl, if_neg h] at hl
      cases hsp : splitNl t with
      | nil => exact absurd hsp (splitNl_ne_nil t)
      | cons a r =>
        rw [hsp] at hl
        rcases List.mem_cons.mp hl with rfl | hr
        · intro hmem
          rcases List.mem_cons.mp hmem with hc | ha
          · exact h hc.symm
          · exact ih a (by rw [hsp]; exact List.mem_cons_self a r) ha
        · exact ih l (by rw [hsp]; exact List.mem_cons_of_mem a hr)

theorem splitNl_single (x : List Char) (hx : ¬ '\n' ∈ x) : splitNl x = [x] := by
  induction x with
  | nil => rfl
  | cons c t ih =>
    have hc : ¬ c = '\n' := fun h => hx (List.mem_cons.mpr (Or.inl h.symm))
    rw [show splitNl (c :: t) = if c = '\n' then [] :: splitNl t else
        match splitNl t with
        | [] => [[c]]
        | h :: r => (c :: h) :: r from rfl, if_neg hc]
    rw [ih (fun hm => hx (List.mem_cons.mpr (Or.inr hm)))]

theorem splitNl_append (x cs : List Char) (hx : ¬ '\n' ∈ x) :
    splitNl (x ++ '\n' :: cs) = x :: splitNl cs := by
  induction x with
  | nil =>
    rw [List.nil_append]
    rw [show splitNl ('\n' :: cs) = if ('\n' : Char) = '\n' then [] :: splitNl cs else
        match splitNl cs with
        | [] => [['\n']]
        | h :: r => ('\n' :: h) :: r from rfl, if_pos rfl]
  | cons c t ih =>
    have hc : ¬ c = '\n' := fun h => hx (List.mem_cons.mpr (Or.inl h.symm))
    rw [List.cons_append]
    rw [show splitNl (c :: (t ++ '\n' :: cs)) = if c = '\n' then
          [] :: splitNl (t ++ '\n' :: cs)
        else
          match splitNl (t ++ '\n' :: cs) with
          | [] => [[c]]
          | h :: r => (c :: h) :: r from rfl, if_neg hc]
    rw [ih (fun hm => hx (List.mem_cons.mpr (Or.inr hm)))]

theorem splitNl_joinNl (ls : List (List Char)) (hne : ls ≠ [])
    (hnl : ∀ l ∈ ls, ¬ '\n' ∈ l) : splitNl (joinNl ls) = ls := by
  induction ls with
  | nil => exact absurd rfl hne
  | cons x rest ih =>
    cases rest with
    | nil =>
      rw [show joinNl [x] = x from rfl]
      exact splitNl_single x (hnl x (List.mem_cons_self ..))
    | cons y t =>
      rw [show joinNl (x :: y :: t) = x ++ '\n' :: joinNl (y :: t) from rfl]
      rw [splitNl_append x _ (hnl x (List.mem_cons_self ..))]
      rw [ih (by simp) (fun l hl => hnl l (List.mem_cons_of_mem x hl))]

theorem joinCommaData_no_newline (ls : List (List Char))
    (h : ∀ l ∈ ls, ¬ '\n' ∈ l) : ¬ '\n' ∈ joinCommaData ls := by
  induction ls with
  | nil => simp [joinCommaData]
  | cons x rest ih =>
    cases rest with
    | nil =>
      rw [show joinCommaData [x] = x from rfl]
      exact h x (List.mem_cons_self ..)
    | cons y t =>
      rw [show joinCommaData (x :: y :: t) = x ++ ',' :: ' ' :: joinCommaData (y :: t)
        from rfl]
      intro hmem
      rcases List.mem_append.mp hmem with hx | hrest
      · exact h x (List.mem_cons_self ..) hx
      · rcases List.mem_cons.mp hrest with hc | hrest2
        · exact absurd hc (by decide)
        · rcases List.mem_cons.mp hrest2 with hc | hrest3
          · exact absurd hc (by decide)
          · exact ih (fun l hl => h l (List.mem_cons_of_mem x hl)) hrest3

theorem serviceHeaderFor_no_newline (t : String) (services : List String)
    (h : ∀ s ∈ services, ¬ '\n' ∈ s.data) :
    ¬ '\n' ∈ (serviceHeaderFor t services).data := by
  have hjc : ¬ '\n' ∈ (joinComma services).data := by
    show ¬ '\n' ∈ joinCommaData (services.map (fun s => s.data))
    apply joinCommaData_no_newline
    intro l hl
    rcases List.mem_map.mp hl with ⟨s, hs, rfl⟩
    exact h s hs
  unfold serviceHeaderFor
  by_cases ht : (t == "sales") = true
  · rw [if_pos ht, String.data_append]
    intro hmem
    rcases List.mem_append.mp hmem with h1 | h2
    · exact absurd h1 (by decide)
    · exact hjc h2
  · rw [if_neg ht, String.data_append]
    intro hmem
    rcases List.mem_append.mp hmem with h1 | h2
    · exact absurd h1 (by decide)
    · exact hjc h2

theorem stringMk_data (s : String) : (⟨s.data⟩ : String) = s := by
  cases s
  rfl

theorem pySplit_pyJoin (ls : List String) (hne : ls ≠ [])
    (hnl : ∀ l ∈ ls, ¬ '\n' ∈ l.data) : pySplitLines (pyJoinLines ls) = ls := by
  unfold pySplitLines pyJoinLines
  rw [show (⟨joinNl (ls.map (fun l => l.data))⟩ : String).data =
    joinNl (ls.map (fun l => l.data)) from rfl]
  have hmapne : ls.map (fun l => l.data) ≠ [] := by
    cases ls with
    | nil => exact absurd rfl hne
    | cons a t => simp
  have hmapnl : ∀ l ∈ ls.map (fun l => l.data), ¬ '\n' ∈ l := by
    intro l hl
    rcases List.mem_map.mp hl with ⟨s, hs, rfl⟩
    exact hnl s hs
  rw [splitNl_joinNl _ hmapne hmapnl, List.map_map]
  have : ls.map ((fun cs => (⟨cs⟩ : String)) ∘ fun l => l.data) = ls.map (fun l => l) :=
    List.map_congr_left (fun a _ => stringMk_data a)
  rw [this, List.map_id']

/-- C9 counterexample: a selected service name containing a newline makes the
program store the header as several text lines, and the next call re-splits
them: the update is not idempotent (`["A", "B\nnote"]` on an empty
description), and a crafted name leaves two recognised header lines
(`["A\nTire Services: B"]`) — refuting both claimed consequences. -/
theorem update_order_details_newline_counterexample :
    update_order_details_description "service" ["A", "B\nnote"]
        (update_order_details_description "service" ["A", "B\nnote"] "") ≠
      update_order_details_description "service" ["A", "B\nnote"] "" ∧
    ((pySplitLines (update_order_details_description "service"
        ["A\nTire Services: B"] "")).filter isServiceHeaderLine).length = 2 := by
  refine ⟨?_, ?_⟩ <;> decide

/-- C9 (amended): for every order and every non-empty list of selected
services none of which contains a newline character, the `update_order_details`
action first removes from the order's description every line whose trimmed,
lowercased text starts with `services:`, `add-ons:`, or `tire services:`, then
appends exactly one new header line (`Tire Services: ...` when the order's type
is `sales`, otherwise `Services: ...`) listing the selected services;
consequently the resulting description contains exactly one such header line,
and applying the same update twice yields the same description as applying it
once. -/
theorem update_order_details_description_services (t : String)
    (services : List String) (desc : String) (hne : services ≠ [])
    (hnl : ∀ s ∈ services, ¬ '\n' ∈ s.data) :
    ((pySplitLines (update_order_details_description t services desc)).filter
      isServiceHeaderLine).length = 1 ∧
    (pySplitLines (update_order_details_description t services desc)).getLast? =
      some (serviceHeaderFor t services) ∧
    update_order_details_description t services
        (update_order_details_description t services desc) =
      update_order_details_description t services desc := by
  have hie : services.isEmpty = false := List.isEmpty_eq_false.mpr hne
  have hres : ∀ d : String, update_order_details_description t services d =
      pyJoinLines (update_order_details_desc t services (pySplitLines d)) := by
    intro d
    unfold update_order_details_description
    rw [hie]
    simp
  have hLnl : ∀ l ∈ update_order_details_desc t services (pySplitLines desc),
      ¬ '\n' ∈ l.data := by
    intro l hl
    rw [update_order_details_desc_eq t services _ hne] at hl
    rcases List.mem_append.mp hl with hk | hh
    · have hl0 : l ∈ pySplitLines desc :=
        (List.mem_filter.mp (List.mem_filter.mp hk).1).1
      unfold pySplitLines at hl0
      rcases List.mem_map.mp hl0 with ⟨cs, hcs, rfl⟩
      exact splitNl_no_newline desc.data cs hcs
    · rw [List.mem_singleton] at hh
      subst hh
      exact serviceHeaderFor_no_newline t services hnl
  have hLne : update_order_details_desc t services (pySplitLines desc) ≠ [] := by
    rw [update_order_details_desc_eq t services _ hne]
    simp
  have hL : pySplitLines (pyJoinLines
      (update_order_details_desc t services (pySplitLines desc))) =
      update_order_details_desc t services (pySplitLines desc) :=
    pySplit_pyJoin _ hLne hLnl
  obtain ⟨hc1, hc2, hc3⟩ :=
    update_order_details_desc_services t services (pySplitLines desc) hne
  refine ⟨?_, ?_, ?_⟩
  · rw [hres desc, hL]
    exact hc1
  · rw [hres desc, hL]
    exact hc2
  · rw [hres (update_order_details_description t services desc), hres desc, hL, hc3]

/-- C9 witness: the amended theorem applied to the services `["Oil change"]`
and a description holding a note, an old header line and a blank line. -/
theorem update_order_details_description_services_witness :
    ((pySplitLines (update_order_details_description "service" ["Oil change"]
        "Note\nservices: old\n")).filter isServiceHeaderLine).length = 1 ∧
    (pySplitLines (update_order_details_description "service" ["Oil change"]
        "Note\nservices: old\n")).getLast? =
      some (serviceHeaderFor "service" ["Oil change"]) ∧
    update_order_details_description "service" ["Oil change"]
        (update_order_details_description "service" ["Oil change"]
          "Note\nservices: old\n") =
      update_order_details_description "service" ["Oil change"]
        "Note\nservices: old\n" :=
  update_order_details_description_services "service" ["Oil change"]
    "Note\nservices: old\n" (by decide) (by decide)

/-! ## C4: extraction-merge validation -/

/-- C4: for every input to `api_update_order_from_extraction` naming an
existing order of the branch, if the (stripped) customer name or phone is
empty, or the customer type is outside the fixed enum, or a personal customer
lacks a personal subtype, or an organizational customer lacks an organization
name or tax number, then the view answers with a field-specific 400 validation
error and the database is unchanged. -/
theorem api_update_order_from_extraction_validation (db : DB) (b : Nat)
    (r : ExtractionReq) (oid : Nat) (hid : r.order_id = some oid)
    (hfound : (db.orders.find? (fun o => o.id == oid && o.branch == b)).isSome)
    (hbad :
      pyStrip r.extracted_customer_name = "" ∨ pyStrip r.extracted_phone = "" ∨
      pyStrip r.extracted_customer_type ∉ ["personal", "company", "government", "ngo"] ∨
      (pyStrip r.extracted_customer_type = "personal" ∧
        pyStrip r.extracted_personal_subtype = "") ∨
      (pyStrip r.extracted_customer_type ∈ ["company", "government", "ngo"] ∧
        (pyStrip r.extracted_organization_name = "" ∨
          pyStrip r.extracted_tax_number = ""))) :
    (api_update_order_from_extraction db b r).1.isValidationError = true ∧
    (api_update_order_from_extraction db b r).2 = db := by
  obtain ⟨o0, ho0⟩ := Option.isSome_iff_exists.mp hfound
  simp only [api_update_order_from_extraction, hid, ho0]
  by_cases h1 : pyStrip r.extracted_customer_name = "" ∨ pyStrip r.extracted_phone = ""
  · rw [if_pos h1]
    exact ⟨rfl, rfl⟩
  · rw [if_neg h1]
    by_cases h2 : pyStrip r.extracted_customer_type = ""
    · rw [if_pos h2]
      exact ⟨rfl, rfl⟩
    · rw [if_neg h2]
      by_cases h3 : pyStrip r.extracted_customer_type ∉
          ["personal", "company", "government", "ngo"]
      · rw [if_pos h3]
        exact ⟨rfl, rfl⟩
      · rw [if_neg h3]
        by_cases h4 : pyStrip r.extracted_customer_type = "personal" ∧
            pyStrip r.extracted_personal_subtype = ""
        · rw [if_pos h4]
          exact ⟨rfl, rfl⟩
        · rw [if_neg h4]
          by_cases h5 : pyStrip r.extracted_customer_type ∈ ["company", "government", "ngo"] ∧
              (pyStrip r.extracted_organization_name = "" ∨ pyStrip r.extracted_tax_number = "")
          · rw [if_pos h5]
            exact ⟨rfl, rfl⟩
          · exact absurd hbad (by
              push_neg at h1
              intro hc
              rcases hc with hc | hc | hc | hc | hc
              · exact h1.1 hc
              · exact h1.2 hc
              · exact h3 hc
              · exact h4 hc
              · exact h5 hc)

/-- C4 witness: a personal customer without a personal subtype is rejected with
a validation error and the one-order database is returned unchanged. -/
theorem api_update_order_from_extraction_validation_witness :
    (api_update_order_from_extraction { emptyDB with orders := [baseOrder], nextId := 2 } 1
      { order_id := some 1, extracted_customer_type := "personal"
        extracted_personal_subtype := "", extracted_organization_name := ""
        extracted_tax_number := "", extracted_customer_name := "Jane"
        extracted_phone := "777", extracted_email := "", extracted_address := ""
        extracted_description := "", extracted_estimated_duration := ""
        extracted_priority := "medium", extracted_services := ""
        extracted_plate := "", extracted_make := "", extracted_model := "" }).1.isValidationError =
      true ∧
    (api_update_order_from_extraction { emptyDB with orders := [baseOrder], nextId := 2 } 1
      { order_id := some 1, extracted_customer_type := "personal"
        extracted_personal_subtype := "", extracted_organization_name := ""
        extracted_tax_number := "", extracted_customer_name := "Jane"
        extracted_phone := "777", extracted_email := "", extracted_address := ""
        extracted_description := "", extracted_estimated_duration := ""
        extracted_priority := "medium", extracted_services := ""
        extracted_plate := "", extracted_make := "", extracted_model := "" }).2 =
      { emptyDB with orders := [baseOrder], nextId := 2 } :=
  api_update_order_from_extraction_validation _ 1 _ 1 rfl (by decide)
    (by right; right; right; left; exact ⟨by decide, by decide⟩)

/-! ## C7: repeated vehicles KPI -/

/-- Definition following the claim's words, for comparison with the source's
grouped count: the number of distinct plate numbers that have at least two
created orders started today in the branch. -/
def repeatedPlatesSpec (db : DB) (branch : Nat) : Nat :=
  ((db.vehicles.map (fun v => v.plate_number)).toFinset.filter
    (fun p => 2 ≤ (db.orders.filter (fun o =>
      startedTodayWithVehicle db branch o && plateOf db o == some p)).length)).card

/-- KPI fixture: one plate with two orders started today and another plate with
one order started today. -/
def kpiDB : DB :=
  { customers := [baseCustomer]
    vehicles := [{ baseVehicle with id := 2, plate_number := "AAA" },
                 { baseVehicle with id := 3, plate_number := "BBB" }]
    orders := [{ baseOrder with id := 4, vehicle_id := some 2 },
               { baseOrder with id := 5, vehicle_id := some 2 },
               { baseOrder with id := 6, vehicle_id := some 3 }]
    service_types := [], service_addons := [], nextId := 7, now := 0 }

/-- C7: the KPI `repeated_vehicles_today` equals the number of distinct plate
numbers with at least two created orders started today in the branch; in
particular two orders started today for one plate and one order for another
plate yield the value 1. -/
theorem repeated_vehicles_today_spec :
    (∀ (db : DB) (branch : Nat),
      repeated_vehicles_today db branch = repeatedPlatesSpec db branch) ∧
    repeated_vehicles_today kpiDB 1 = 1 := by
  constructor
  · intro db branch
    unfold repeated_vehicles_today repeatedPlatesSpec
    apply congrArg Finset.card
    apply Finset.ext
    intro p
    have hcount : ((db.orders.filter (startedTodayWithVehicle db branch)).filterMap
        (plateOf db)).count p =
        (db.orders.filter (fun o =>
          startedTodayWithVehicle db branch o && plateOf db o == some p)).length := by
      rw [List.count_filterMap, List.countP_eq_length_filter, List.filter_filter]
      apply congrArg List.length
      apply List.filter_congr
      intro a _
      rw [Bool.and_comm]
    have hsrc : ∀ q,
        q ∈ ((db.orders.filter (startedTodayWithVehicle db branch)).filterMap
          (plateOf db)).toFinset.filter (fun x => 2 ≤
            ((db.orders.filter (startedTodayWithVehicle db branch)).filterMap
              (plateOf db)).count x) ↔
        q ∈ ((db.orders.filter (startedTodayWithVehicle db branch)).filterMap
          (plateOf db)).toFinset ∧ 2 ≤
            ((db.orders.filter (startedTodayWithVehicle db branch)).filterMap
              (plateOf db)).count q := fun q => Finset.mem_filter
    rw [hsrc, Finset.mem_filter, hcount]
    have hmain : 2 ≤ (db.orders.filter (fun o =>
        startedTodayWithVehicle db branch o && plateOf db o == some p)).length →
        (∃ o ∈ db.orders, startedTodayWithVehicle db branch o = true ∧
          plateOf db o = some p) := by
      intro hc
      have hne : (db.orders.filter (fun o =>
          startedTodayWithVehicle db branch o && plateOf db o == some p)) ≠ [] := by
        intro hnil
        rw [hnil] at hc
        simp at hc
      obtain ⟨o, ho⟩ := List.exists_mem_of_ne_nil _ hne
      have hmem := List.mem_filter.mp ho
      have hand := hmem.2
      rw [Bool.and_eq_true, beq_iff_eq] at hand
      exact ⟨o, hmem.1, hand.1, hand.2⟩
    constructor
    · intro ⟨_, hc⟩
      refine ⟨?_, hc⟩
      obtain ⟨o, ho, hst, hpl⟩ := hmain hc
      unfold plateOf at hpl
      obtain ⟨vid, hvid⟩ := Option.bind_eq_some.mp hpl
      obtain ⟨v, hv, hvp⟩ := Option.map_eq_some'.mp hvid.2
      rw [List.mem_toFinset, List.mem_map]
      refine ⟨v, ?_, ?_⟩
      · exact List.mem_of_find?_eq_some hv
      · exact hvp
    · intro ⟨_, hc⟩
      refine ⟨?_, hc⟩
      obtain ⟨o, ho, hst, hpl⟩ := hmain hc
      rw [List.mem_toFinset, List.mem_filterMap]
      exact ⟨o, List.mem_filter.mpr ⟨ho, hst⟩, hpl⟩
  · decide

/-! ## C1: at most one created-status order per vehicle -/

/-- Created-status orders that are attached to a vehicle. -/
def createdWithVehicle (db : DB) : List Order :=
  db.orders.filter (fun o => o.status == "created" && o.vehicle_id.isSome)

/-- The invariant of spec §3: each vehicle has at most one order with status
`created` (no two created-status orders share a vehicle). -/
def InvOneCreatedPerVehicle (db : DB) : Prop :=
  (createdWithVehicle db).Pairwise (fun a b => a.vehicle_id ≠ b.vehicle_id)

theorem create_or_get_customer_orders (db : DB) (b : Nat) (fn ph ct : String)
    (ps og tx em ad : Option String) :
    (create_or_get_customer db b fn ph ct ps og tx em ad).2.orders = db.orders := by
  unfold create_or_get_customer
  split <;> rfl

theorem create_or_get_vehicle_orders (db : DB) (cid : Nat) (pl : String)
    (mk md : Option String) :
    (create_or_get_vehicle db cid pl mk md).2.orders = db.orders := by
  unfold create_or_get_vehicle
  split <;> rfl

theorem inv_of_orders_eq {db1 db2 : DB} (h : db1.orders = db2.orders)
    (hinv : InvOneCreatedPerVehicle db2) : InvOneCreatedPerVehicle db1 := by
  unfold InvOneCreatedPerVehicle createdWithVehicle at hinv ⊢
  rw [h]
  exact hinv

theorem mkStartedOrder_status (db2 : DB) (b : Nat) (req : StartReq) (plate : String)
    (cid vid : Nat) : (mkStartedOrder db2 b req plate cid vid).status = "created" := rfl

theorem mkStartedOrder_vehicle (db2 : DB) (b : Nat) (req : StartReq) (plate : String)
    (cid vid : Nat) : (mkStartedOrder db2 b req plate cid vid).vehicle_id = some vid := rfl

theorem createOrderIfAbsent_preserves (db2 : DB) (b : Nat) (req : StartReq)
    (plate : String) (cid vid : Nat) (h : InvOneCreatedPerVehicle db2) :
    InvOneCreatedPerVehicle ((createOrderIfAbsent db2 b req plate cid vid).2) := by
  unfold createOrderIfAbsent
  cases hhead : (db2.orders.filter (fun o =>
      o.vehicle_id == some vid && o.status == "created")).head? with
  | some o => exact h
  | none =>
    simp only
    rw [List.head?_eq_none_iff] at hhead
    unfold InvOneCreatedPerVehicle createdWithVehicle
    simp only [List.filter_append]
    rw [show (List.filter (fun o => o.status == "created" && o.vehicle_id.isSome)
        [mkStartedOrder db2 b req plate cid vid]) = [mkStartedOrder db2 b req plate cid vid] by
      simp [List.filter_cons, mkStartedOrder_status, mkStartedOrder_vehicle]]
    rw [List.pairwise_append]
    refine ⟨h, by simp, ?_⟩
    intro a ha b2 hb2
    rw [List.mem_singleton] at hb2
    subst hb2
    rw [mkStartedOrder_vehicle]
    intro hcontra
    have hmem := List.mem_filter.mp ha
    have hcond := hmem.2
    rw [Bool.and_eq_true, beq_iff_eq] at hcond
    have : a ∈ (db2.orders.filter (fun o =>
        o.vehicle_id == some vid && o.status == "created")) := by
      rw [List.mem_filter]
      refine ⟨hmem.1, ?_⟩
      rw [Bool.and_eq_true, beq_iff_eq, beq_iff_eq]
      exact ⟨hcontra, hcond.1⟩
    rw [hhead] at this
    exact absurd this (List.not_mem_nil a)

theorem startOrderTxn_preserves (db : DB) (b : Nat) (req : StartReq) (plate : String)
    (h : InvOneCreatedPerVehicle db) :
    InvOneCreatedPerVehicle ((startOrderTxn db b req plate).2) := by
  unfold startOrderTxn
  by_cases hflag : (req.use_existing_customer && idTruthy req.existing_customer_id) = true
  · rw [if_pos hflag]
    cases hfind : db.customers.find? (fun c =>
        c.id == req.existing_customer_id.getD 0 && c.branch == b) with
    | none => exact h
    | some c =>
      simp only
      apply createOrderIfAbsent_preserves
      exact inv_of_orders_eq (create_or_get_vehicle_orders ..) h
  · rw [if_neg hflag]
    simp only
    apply createOrderIfAbsent_preserves
    refine inv_of_orders_eq ?_ h
    rw [create_or_get_vehicle_orders, create_or_get_customer_orders]

/-- C1 (amended, part 1): `api_start_order`, run sequentially from a state in
which every vehicle has at most one created-status order, always produces such
a state again: the transaction creates an order only after checking that the
vehicle has no created-status order. -/
theorem api_start_order_preserves_invariant (db : DB) (b : Nat) (req : StartReq)
    (h : InvOneCreatedPerVehicle db) :
    InvOneCreatedPerVehicle ((api_start_order db b req).2) := by
  unfold api_start_order
  by_cases h1 : pyUpper (pyStrip req.plate_number) = ""
  · rw [if_pos h1]
    exact h
  · rw [if_neg h1]
    by_cases h2 : req.order_type ∉ ["service", "sales", "inquiry"]
    · rw [if_pos h2]
      exact h
    · rw [if_neg h2]
      cases hhead : (db.vehicles.filter (fun v =>
          iexact v.plate_number (pyUpper (pyStrip req.plate_number)) &&
            vehicleBranch db v == some b)).head? with
      | none => exact startOrderTxn_preserves db b req _ h
      | some ev =>
        simp only
        by_cases h3 : (!req.use_existing_customer && !idTruthy req.existing_customer_id) = true
        · rw [if_pos h3]
          cases hlast : latestCreatedOrderFor db ev.id with
          | some o => exact h
          | none => exact h
        · rw [if_neg h3]
          exact startOrderTxn_preserves db b req _ h

/-- C1 witness: the preservation theorem applied to the empty database and a
fresh plate. -/
theorem api_start_order_preserves_invariant_witness :
    InvOneCreatedPerVehicle ((api_start_order emptyDB 1
      { plate_number := "XYZ", order_type := "service", use_existing_customer := false
        existing_customer_id := none, service_selection := [], estimated_duration := none }).2) :=
  api_start_order_preserves_invariant emptyDB 1 _ (by
    unfold InvOneCreatedPerVehicle createdWithVehicle
    simp [emptyDB])

/-- Database with one vehicle that already has a created-status order. -/
def dbDup : DB :=
  { emptyDB with customers := [baseCustomer], vehicles := [baseVehicle]
                 orders := [{ baseOrder with vehicle_id := some 2 }], nextId := 5 }

/-- Modal request resolving to the same customer and vehicle as `dbDup`. -/
def modalReqDup : ModalReq :=
  { order_type := "service", customer_type := "personal", personal_subtype := "owner"
    organization_name := "", tax_number := "", customer_name := "John", phone := "555"
    email := "", address := "", description := "", estimated_duration := ""
    priority := "medium", plate_number := "ABC", vehicle_make := "", vehicle_model := "" }

/-- C1 counterexample: from a state satisfying the invariant,
`api_create_order_from_modal` resolves the same customer and vehicle by
create-or-get and creates a second created-status order for that vehicle
without any duplicate check (lines 802-829). -/
theorem modal_duplicate_created_order_counterexample :
    InvOneCreatedPerVehicle dbDup ∧
    ¬ InvOneCreatedPerVehicle ((api_create_order_from_modal dbDup 1 modalReqDup).2) ∧
    ((api_create_order_from_modal dbDup 1 modalReqDup).2.orders.filter
      (fun o => o.vehicle_id == some 2 && o.status == "created")).length = 2 := by
  refine ⟨?_, ?_, ?_⟩
  · unfold InvOneCreatedPerVehicle
    decide
  · unfold InvOneCreatedPerVehicle
    decide
  · decide

/-! ## C10: lenient priority and estimated-duration handling -/

theorem resolveExtractionCustomer_orders (db : DB) (b : Nat)
    (ct cn ph ps og tx em ad : String) :
    (resolveExtractionCustomer db b ct cn ph ps og tx em ad).2.orders = db.orders := by
  unfold resolveExtractionCustomer
  split <;> rw [create_or_get_customer_orders]

theorem extractionVehicleStep_orders (db1 : DB) (cid : Nat) (pl mk md : String)
    (ov : Option Nat) :
    (extractionVehicleStep db1 cid pl mk md ov).2.orders = db1.orders := by
  unfold extractionVehicleStep
  split
  · rw [create_or_get_vehicle_orders]
  · rfl

theorem wf_orders_nodup (db : DB) (h : wfDB db = true) :
    (db.orders.map (fun o => o.id)).Nodup := by
  simp only [wfDB, Bool.and_eq_true, decide_eq_true_eq] at h
  exact h.2

/-- C10: priority values outside the enum are silently normalised to
`"medium"`, and an empty or non-numeric `estimated_duration` is silently
treated as absent — the extraction update keeps the order's previous
`estimated_duration` and the modal create stores `none` — rather than causing
an error. -/
theorem lenient_priority_and_duration :
    (∀ (db : DB) (b : Nat) (r : ExtractionReq) (oid : Nat),
      wfDB db = true →
      r.order_id = some oid →
      (∃ o ∈ db.orders, o.id = oid ∧ o.branch = b) →
      pyStrip r.extracted_customer_name ≠ "" →
      pyStrip r.extracted_phone ≠ "" →
      pyStrip r.extracted_customer_type ∈ ["personal", "company", "government", "ngo"] →
      (pyStrip r.extracted_customer_type = "personal" →
        pyStrip r.extracted_personal_subtype ≠ "") →
      (pyStrip r.extracted_customer_type ∈ ["company", "government", "ngo"] →
        pyStrip r.extracted_organization_name ≠ "" ∧ pyStrip r.extracted_tax_number ≠ "") →
      pyStrip r.extracted_priority ∉ ["low", "medium", "high", "urgent"] →
      parseEstimatedDuration (pyStrip r.extracted_estimated_duration) = none →
      (api_update_order_from_extraction db b r).1 = .updated oid ∧
      List.Forall₂ (fun o o' =>
          o'.id = o.id ∧
          (o.id = oid → o'.priority = "medium" ∧
            o'.estimated_duration = o.estimated_duration) ∧
          (o.id ≠ oid → o' = o))
        db.orders (api_update_order_from_extraction db b r).2.orders) ∧
    (∀ (db : DB) (b : Nat) (r : ModalReq),
      pyStrip r.customer_name ≠ "" →
      pyStrip r.phone ≠ "" →
      pyStrip r.order_type ∈ ["service", "sales", "inquiry", "upload"] →
      pyStrip r.customer_type ∈ ["personal", "company", "government", "ngo"] →
      (pyStrip r.customer_type = "personal" → pyStrip r.personal_subtype ≠ "") →
      (pyStrip r.customer_type ∈ ["company", "government", "ngo"] →
        pyStrip r.organization_name ≠ "" ∧ pyStrip r.tax_number ≠ "") →
      pyStrip r.priority ∉ ["low", "medium", "high", "urgent"] →
      parseEstimatedDuration (pyStrip r.estimated_duration) = none →
      (∃ oid, (api_create_order_from_modal db b r).1 = .created oid) ∧
      ((api_create_order_from_modal db b r).2.orders.getLast?).map
        (fun o => (o.priority, o.estimated_duration)) = some ("medium", none)) := by
  constructor
  · intro db b r oid hwf hid horder hname hphone hct hsub horg hprio hest
    have hfound : (db.orders.find? (fun o => o.id == oid && o.branch == b)).isSome := by
      rw [List.find?_isSome]
      obtain ⟨o, ho, h1, h2⟩ := horder
      exact ⟨o, ho, by rw [Bool.and_eq_true, beq_iff_eq, beq_iff_eq]; exact ⟨h1, h2⟩⟩
    obtain ⟨o0, hfind⟩ := Option.isSome_iff_exists.mp hfound
    have ho0pred := List.find?_some hfind
    rw [Bool.and_eq_true, beq_iff_eq, beq_iff_eq] at ho0pred
    have ho0mem := List.mem_of_find?_eq_some hfind
    have hinj := List.inj_on_of_nodup_map (wf_orders_nodup db hwf)
    simp only [api_update_order_from_extraction, hid, hfind]
    rw [if_neg (not_or.mpr ⟨hname, hphone⟩)]
    rw [if_neg (show ¬ pyStrip r.extracted_customer_type = "" by
      intro hc
      rw [hc] at hct
      simp at hct)]
    rw [if_neg (not_not_intro hct)]
    rw [if_neg (show ¬ (pyStrip r.extracted_customer_type = "personal" ∧
        pyStrip r.extracted_personal_subtype = "") from
      fun hc => hsub hc.1 hc.2)]
    rw [if_neg (show ¬ (pyStrip r.extracted_customer_type ∈ ["company", "government", "ngo"] ∧
        (pyStrip r.extracted_organization_name = "" ∨ pyStrip r.extracted_tax_number = "")) from
      fun hc => hc.2.elim (horg hc.1).1 (horg hc.1).2)]
    refine ⟨by rw [ho0pred.1], ?_⟩
    simp only
    rw [extractionVehicleStep_orders, resolveExtractionCustomer_orders]
    rw [List.forall₂_map_right_iff, List.forall₂_same]
    intro o ho
    by_cases hmatch : (o.id == oid && o.branch == b) = true
    · rw [if_pos hmatch]
      rw [Bool.and_eq_true, beq_iff_eq, beq_iff_eq] at hmatch
      have hoo0 : o = o0 := hinj ho ho0mem (by rw [hmatch.1, ho0pred.1])
      refine ⟨?_, ?_, ?_⟩
      · simp only [updatedExtractionOrder]
        rw [ho0pred.1, hmatch.1]
      · intro _
        constructor
        · simp only [updatedExtractionOrder]
          rw [if_neg hprio]
        · simp only [updatedExtractionOrder, hest]
          rw [show intTruthy none = false from rfl]
          simp only [Bool.false_eq_true, if_false]
          rw [hoo0]
      · intro hne
        exact absurd hmatch.1 hne
    · rw [if_neg hmatch]
      refine ⟨rfl, ?_, fun _ => rfl⟩
      intro hoid
      have hoo0 : o = o0 := hinj ho ho0mem (by rw [hoid, ho0pred.1])
      exact absurd (by rw [Bool.and_eq_true, beq_iff_eq, beq_iff_eq]
                       exact ⟨hoid, by rw [hoo0]; exact ho0pred.2⟩) hmatch
  · intro db b r hname hphone hot hct hsub horg hprio hest
    simp only [api_create_order_from_modal]
    rw [if_neg (not_or.mpr ⟨hname, hphone⟩)]
    rw [if_neg (not_not_intro hot)]
    rw [if_neg (not_not_intro hct)]
    rw [if_neg (show ¬ (pyStrip r.customer_type = "personal" ∧
        pyStrip r.personal_subtype = "") from fun hc => hsub hc.1 hc.2)]
    rw [if_neg (show ¬ (pyStrip r.customer_type ∈ ["company", "government", "ngo"] ∧
        (pyStrip r.organization_name = "" ∨ pyStrip r.tax_number = "")) from
      fun hc => hc.2.elim (horg hc.1).1 (horg hc.1).2)]
    refine ⟨⟨_, rfl⟩, ?_⟩
    simp only
    rw [List.getLast?_concat]
    simp only [Option.map_some, mkModalOrder]
    rw [if_neg hprio, hest]
    rfl

/-- Extraction fixture for the C10 witness: priority `"asap"` and duration
`"soon"` are both invalid. -/
def c10DB : DB :=
  { emptyDB with orders := [{ baseOrder with estimated_duration := some 45 }], nextId := 2 }

/-- Extraction request of the C10 witness. -/
def c10ExtractionReq : ExtractionReq :=
  { order_id := some 1, extracted_customer_type := "personal"
    extracted_personal_subtype := "owner", extracted_organization_name := ""
    extracted_tax_number := "", extracted_customer_name := "Jane"
    extracted_phone := "777", extracted_email := "", extracted_address := ""
    extracted_description := "", extracted_estimated_duration := "soon"
    extracted_priority := "asap", extracted_services := ""
    extracted_plate := "", extracted_make := "", extracted_model := "" }

/-- Modal request of the C10 witness. -/
def c10ModalReq : ModalReq :=
  { order_type := "service", customer_type := "personal", personal_subtype := "owner"
    organization_name := "", tax_number := "", customer_name := "Jane", phone := "777"
    email := "", address := "", description := "", estimated_duration := ""
    priority := "ASAP", plate_number := "", vehicle_make := "", vehicle_model := "" }

/-- C10 witness: both parts applied at concrete inputs — an extraction update
with priority `"asap"` and duration `"soon"` on a one-order database, and a
modal create with priority `"ASAP"` and empty duration. -/
theorem lenient_priority_and_duration_witness :
    ((api_update_order_from_extraction c10DB 1 c10ExtractionReq).1 = .updated 1 ∧
      List.Forall₂ (fun o o' =>
          o'.id = o.id ∧
          (o.id = 1 → o'.priority = "medium" ∧
            o'.estimated_duration = o.estimated_duration) ∧
          (o.id ≠ 1 → o' = o))
        c10DB.orders (api_update_order_from_extraction c10DB 1 c10ExtractionReq).2.orders) ∧
    ((∃ oid, (api_create_order_from_modal emptyDB 1 c10ModalReq).1 = .created oid) ∧
      ((api_create_order_from_modal emptyDB 1 c10ModalReq).2.orders.getLast?).map
        (fun o => (o.priority, o.estimated_duration)) = some ("medium", none)) :=
  ⟨lenient_priority_and_duration.1 c10DB 1 c10ExtractionReq 1 (by decide) rfl
      (by decide) (by decide) (by decide) (by decide)
      (fun _ => by decide) (fun hc => absurd hc (by decide)) (by decide) (by decide),
   lenient_priority_and_duration.2 emptyDB 1 c10ModalReq (by decide) (by decide)
      (by decide) (by decide) (fun _ => by decide) (fun hc => absurd hc (by decide))
      (by decide) (by decide)⟩

/-! ## C2 and C8: the creation path of api_start_order -/

theorem wf_parts (db : DB) (h : wfDB db = true) :
    (∀ c ∈ db.customers, c.id < db.nextId) ∧
    (∀ v ∈ db.vehicles, v.id < db.nextId ∧ v.customer_id < db.nextId) ∧
    (∀ o ∈ db.orders, o.id < db.nextId ∧
      ∀ vid, o.vehicle_id = some vid → vid < db.nextId) ∧
    (db.customers.map (fun c => c.id)).Nodup := by
  simp only [wfDB, Bool.and_eq_true, decide_eq_true_eq, List.all_eq_true] at h
  obtain ⟨⟨⟨⟨hc, hv⟩, ho⟩, hnd⟩, _⟩ := h
  refine ⟨fun c hcm => by exact_mod_cast hc c hcm, fun v hvm => hv v hvm, ?_, hnd⟩
  intro o hom
  refine ⟨(ho o hom).1, ?_⟩
  intro vid hvid
  have h2 := (ho o hom).2
  rw [hvid] at h2
  exact of_decide_eq_true h2

theorem find?_id_of_nodup {l : List Customer}
    (hnd : (l.map (fun c => c.id)).Nodup) {c : Customer} (hc : c ∈ l) :
    l.find? (fun x => x.id == c.id) = some c := by
  induction l with
  | nil => cases hc
  | cons h t ih =>
    rw [List.map_cons, List.nodup_cons] at hnd
    rcases List.mem_cons.mp hc with hh | ht
    · subst hh
      exact List.find?_cons_of_pos t (by simp)
    · rw [List.find?_cons_of_neg t (by
        rw [beq_iff_eq]
        intro hcontra
        exact hnd.1 (hcontra ▸ List.mem_map_of_mem (fun c => c.id) ht))]
      exact ih hnd.2 ht

/-- Placeholder customer created by `api_start_order` for an unknown plate
(lines 114-119). -/
def placeholderCustomer (db : DB) (b : Nat) (plate : String) : Customer :=
  { id := db.nextId, branch := b, full_name := "Plate " ++ plate
    phone := "PLATE_" ++ plate, customer_type := "personal", personal_subtype := none
    organization_name := none, tax_number := none, email := none, address := none }

/-- State after inserting the placeholder customer. -/
def placeholderDB (db : DB) (b : Nat) (plate : String) : DB :=
  { db with customers := db.customers ++ [placeholderCustomer db b plate]
            nextId := db.nextId + 1 }

/-- Vehicle row inserted by `create_or_get_vehicle` in `api_start_order`. -/
def startVehicle (db1 : DB) (cid : Nat) (plate : String) : Vehicle :=
  { id := db1.nextId, customer_id := cid, plate_number := plate
    make := none, model := none, vehicle_type := none }

/-- State after the vehicle insertion of the start-order transaction. -/
def startDB2 (db1 : DB) (cid : Nat) (plate : String) : DB :=
  { db1 with vehicles := db1.vehicles ++ [startVehicle db1 cid plate]
             nextId := db1.nextId + 1 }

theorem create_or_get_vehicle_start (db1 : DB) (cid : Nat) (plate : String)
    (hfind : db1.vehicles.find? (fun v =>
      v.customer_id == cid && iexact v.plate_number plate) = none) :
    create_or_get_vehicle db1 cid plate none none =
      (startVehicle db1 cid plate, startDB2 db1 cid plate) := by
  unfold create_or_get_vehicle startVehicle startDB2
  rw [hfind]
  rfl

theorem createOrderIfAbsent_creates (db2 : DB) (b : Nat) (req : StartReq)
    (plate : String) (cid vid : Nat)
    (hfilt : db2.orders.filter (fun o =>
      o.vehicle_id == some vid && o.status == "created") = []) :
    createOrderIfAbsent db2 b req plate cid vid =
      (.orderStarted db2.nextId (orderNumberOf db2.nextId) (some db2.now),
       { db2 with orders := db2.orders ++ [mkStartedOrder db2 b req plate cid vid]
                  nextId := db2.nextId + 1 }) := by
  unfold createOrderIfAbsent
  rw [hfilt]
  rfl

/-- Creation path of `api_start_order`: with reuse flags clear, a valid order
type and no vehicle of the branch matching the plate, the view resolves a
placeholder (or matching existing) customer of the branch, inserts a fresh
vehicle for the plate, and inserts a fresh created-status order for it. -/
theorem api_start_order_creates (db : DB) (b : Nat) (req : StartReq)
    (hwf : wfDB db = true)
    (hplate : pyUpper (pyStrip req.plate_number) ≠ "")
    (htype : req.order_type ∈ ["service", "sales", "inquiry"])
    (huse : req.use_existing_customer = false)
    (_hecid : req.existing_customer_id = none)
    (hnoveh : ∀ v ∈ db.vehicles,
      ¬(iexact v.plate_number (pyUpper (pyStrip req.plate_number)) = true ∧
        vehicleBranch db v = some b)) :
    ∃ (c : Customer) (db1 : DB),
      c.branch = b ∧
      db.nextId ≤ db1.nextId ∧
      customerById db1 c.id = some c ∧
      (∀ k, k < db.nextId → customerById db1 k = customerById db k) ∧
      db1.vehicles = db.vehicles ∧ db1.orders = db.orders ∧ db1.now = db.now ∧
      db1.service_types = db.service_types ∧ db1.service_addons = db.service_addons ∧
      api_start_order db b req =
        (.orderStarted (db1.nextId + 1) (orderNumberOf (db1.nextId + 1)) (some db1.now),
         { startDB2 db1 c.id (pyUpper (pyStrip req.plate_number)) with
             orders := db1.orders ++
               [mkStartedOrder (startDB2 db1 c.id (pyUpper (pyStrip req.plate_number)))
                 b req (pyUpper (pyStrip req.plate_number)) c.id db1.nextId]
             nextId := db1.nextId + 2 }) := by
  obtain ⟨hwfc, hwfv, hwfo, hwfnd⟩ := wf_parts db hwf
  have hfilt : db.vehicles.filter (fun v =>
      iexact v.plate_number (pyUpper (pyStrip req.plate_number)) &&
        (vehicleBranch db v == some b)) = [] := by
    rw [List.filter_eq_nil_iff]
    intro v hv hcond
    rw [Bool.and_eq_true, beq_iff_eq] at hcond
    exact hnoveh v hv ⟨hcond.1, hcond.2⟩
  have hmain : ∀ (c : Customer) (db1 : DB),
      create_or_get_customer db b ("Plate " ++ pyUpper (pyStrip req.plate_number))
        ("PLATE_" ++ pyUpper (pyStrip req.plate_number)) "personal"
        none none none none none = (c, db1) →
      c.branch = b →
      db.nextId ≤ db1.nextId →
      customerById db1 c.id = some c →
      (∀ k, k < db.nextId → customerById db1 k = customerById db k) →
      db1.vehicles = db.vehicles → db1.orders = db.orders → db1.now = db.now →
      api_start_order db b req =
        (.orderStarted (db1.nextId + 1) (orderNumberOf (db1.nextId + 1)) (some db1.now),
         { startDB2 db1 c.id (pyUpper (pyStrip req.plate_number)) with
             orders := db1.orders ++
               [mkStartedOrder (startDB2 db1 c.id (pyUpper (pyStrip req.plate_number)))
                 b req (pyUpper (pyStrip req.plate_number)) c.id db1.nextId]
             nextId := db1.nextId + 2 }) := by
    intro c db1 hcres hbranch hle hcid hkeep hveh hord hnow
    have hvfind : db1.vehicles.find? (fun v =>
        v.customer_id == c.id &&
          iexact v.plate_number (pyUpper (pyStrip req.plate_number))) = none := by
      rw [List.find?_eq_none]
      intro v hv
      rw [hveh] at hv
      intro hcond
      rw [Bool.and_eq_true, beq_iff_eq] at hcond
      by_cases hlt : c.id < db.nextId
      · have hbr : vehicleBranch db v = some b := by
          unfold vehicleBranch
          rw [show v.customer_id = c.id from hcond.1]
          rw [← hkeep c.id hlt, hcid]
          simp [hbranch]
        exact hnoveh v hv ⟨hcond.2, hbr⟩
      · exact hlt (by rw [← hcond.1]; exact (hwfv v hv).2)
    have hofind : (startDB2 db1 c.id (pyUpper (pyStrip req.plate_number))).orders.filter
        (fun o => o.vehicle_id == some db1.nextId && o.status == "created") = [] := by
      rw [show (startDB2 db1 c.id (pyUpper (pyStrip req.plate_number))).orders = db1.orders
        from rfl]
      rw [hord, List.filter_eq_nil_iff]
      intro o ho hcond
      rw [Bool.and_eq_true, beq_iff_eq] at hcond
      have := (hwfo o ho).2 db1.nextId hcond.1
      omega
    simp only [api_start_order]
    rw [if_neg hplate]
    rw [if_neg (not_not_intro htype)]
    rw [hfilt]
    simp only [List.head?]
    simp only [startOrderTxn, huse, Bool.false_and, Bool.false_eq_true, if_false]
    rw [hcres]
    simp only
    rw [create_or_get_vehicle_start db1 c.id (pyUpper (pyStrip req.plate_number)) hvfind]
    simp only
    rw [show (startVehicle db1 c.id (pyUpper (pyStrip req.plate_number))).id = db1.nextId
      from rfl]
    rw [createOrderIfAbsent_creates _ b req _ c.id db1.nextId hofind]
    rw [show (startDB2 db1 c.id (pyUpper (pyStrip req.plate_number))).nextId = db1.nextId + 1
      from rfl]
    rw [show (startDB2 db1 c.id (pyUpper (pyStrip req.plate_number))).now = db1.now from rfl]
    rw [hnow]
    rfl
  cases hcust : db.customers.find? (fun x =>
      x.branch == b && x.full_name == ("Plate " ++ pyUpper (pyStrip req.plate_number)) &&
      x.phone == ("PLATE_" ++ pyUpper (pyStrip req.plate_number)) &&
      x.organization_name == none && x.tax_number == none) with
  | some c0 =>
    have hpred := List.find?_some hcust
    have hmem := List.mem_of_find?_eq_some hcust
    simp only [Bool.and_eq_true, beq_iff_eq] at hpred
    exact ⟨c0, db, hpred.1.1.1.1, Nat.le_refl _, find?_id_of_nodup hwfnd hmem,
      fun _ _ => rfl, rfl, rfl, rfl, rfl, rfl,
      hmain c0 db (by unfold create_or_get_customer; rw [hcust]) hpred.1.1.1.1
        (Nat.le_refl _) (find?_id_of_nodup hwfnd hmem) (fun _ _ => rfl) rfl rfl rfl⟩
  | none =>
    have hcidN : customerById (placeholderDB db b (pyUpper (pyStrip req.plate_number)))
        (placeholderCustomer db b (pyUpper (pyStrip req.plate_number))).id =
        some (placeholderCustomer db b (pyUpper (pyStrip req.plate_number))) := by
      unfold customerById placeholderDB
      simp only
      rw [List.find?_append]
      rw [show db.customers.find? (fun x =>
          x.id == (placeholderCustomer db b (pyUpper (pyStrip req.plate_number))).id) = none by
        rw [List.find?_eq_none]
        intro x hx hcond
        rw [beq_iff_eq] at hcond
        have := hwfc x hx
        rw [show (placeholderCustomer db b (pyUpper (pyStrip req.plate_number))).id = db.nextId
          from rfl] at hcond
        omega]
      rw [Option.none_or]
      exact List.find?_cons_of_pos _ (by simp)
    have hkeepN : ∀ k, k < db.nextId →
        customerById (placeholderDB db b (pyUpper (pyStrip req.plate_number))) k =
        customerById db k := by
      intro k hk
      unfold customerById placeholderDB
      simp only
      rw [List.find?_append]
      rw [show List.find? (fun x => x.id == k)
          [placeholderCustomer db b (pyUpper (pyStrip req.plate_number))] = none by
        rw [List.find?_eq_none]
        intro x hx hcond
        rw [List.mem_singleton] at hx
        subst hx
        rw [beq_iff_eq] at hcond
        rw [show (placeholderCustomer db b (pyUpper (pyStrip req.plate_number))).id = db.nextId
          from rfl] at hcond
        omega]
      rw [Option.or_none]
    refine ⟨placeholderCustomer db b (pyUpper (pyStrip req.plate_number)),
      placeholderDB db b (pyUpper (pyStrip req.plate_number)),
      rfl, Nat.le_succ _, hcidN, hkeepN, rfl, rfl, rfl, rfl, rfl, ?_⟩
    exact hmain _ _ (by unfold create_or_get_customer placeholderCustomer placeholderDB
                        rw [hcust]
                        rfl) rfl
      (Nat.le_succ _) hcidN hkeepN rfl rfl rfl

/-- C2: starting the same plate twice in sequence, without
`use_existing_customer` or `existing_customer_id`, from a state in which no
vehicle of the branch matches the plate: the first call creates the order
(201 response), the second returns the existing created-status order for that
vehicle (200 response with `existing_order: True`), and both responses carry
the same order id; the second call leaves the state unchanged. -/
theorem api_start_order_idempotent (db : DB) (b : Nat) (req : StartReq)
    (hwf : wfDB db = true)
    (hplate : pyUpper (pyStrip req.plate_number) ≠ "")
    (htype : req.order_type ∈ ["service", "sales", "inquiry"])
    (huse : req.use_existing_customer = false)
    (hecid : req.existing_customer_id = none)
    (hnoveh : ∀ v ∈ db.vehicles,
      ¬(iexact v.plate_number (pyUpper (pyStrip req.plate_number)) = true ∧
        vehicleBranch db v = some b)) :
    (∃ i n s, (api_start_order db b req).1 = .orderStarted i n s) ∧
    (∃ i n s, (api_start_order (api_start_order db b req).2 b req).1 =
      .existingOrderFound i n s) ∧
    (api_start_order (api_start_order db b req).2 b req).1.orderId =
      (api_start_order db b req).1.orderId ∧
    (api_start_order (api_start_order db b req).2 b req).2 =
      (api_start_order db b req).2 := by
  obtain ⟨c, db1, hbranch, hle, hcid, hkeep, hveh, hord, hnow, hst, hsa, heq⟩ :=
    api_start_order_creates db b req hwf hplate htype huse hecid hnoveh
  obtain ⟨hwfc, hwfv, hwfo, hwfnd⟩ := wf_parts db hwf
  rw [heq]
  simp only
  -- second call on the state after the creation
  have hcustP : ∀ k, customerById
      { startDB2 db1 c.id (pyUpper (pyStrip req.plate_number)) with
          orders := db1.orders ++
            [mkStartedOrder (startDB2 db1 c.id (pyUpper (pyStrip req.plate_number)))
              b req (pyUpper (pyStrip req.plate_number)) c.id db1.nextId]
          nextId := db1.nextId + 2 } k = customerById db1 k := fun k => rfl
  have holdpred : ∀ v ∈ db.vehicles, (iexact v.plate_number (pyUpper (pyStrip req.plate_number)) &&
      (vehicleBranch { startDB2 db1 c.id (pyUpper (pyStrip req.plate_number)) with
          orders := db1.orders ++
            [mkStartedOrder (startDB2 db1 c.id (pyUpper (pyStrip req.plate_number)))
              b req (pyUpper (pyStrip req.plate_number)) c.id db1.nextId]
          nextId := db1.nextId + 2 } v == some b)) = false := by
    intro v hv
    have hbr : vehicleBranch { startDB2 db1 c.id (pyUpper (pyStrip req.plate_number)) with
        orders := db1.orders ++
          [mkStartedOrder (startDB2 db1 c.id (pyUpper (pyStrip req.plate_number)))
            b req (pyUpper (pyStrip req.plate_number)) c.id db1.nextId]
        nextId := db1.nextId + 2 } v = vehicleBranch db v := by
      unfold vehicleBranch
      rw [hcustP v.customer_id, hkeep v.customer_id (hwfv v hv).2]
    rw [hbr]
    cases hx : iexact v.plate_number (pyUpper (pyStrip req.plate_number)) with
    | false => rfl
    | true =>
      rw [Bool.true_and, beq_eq_false_iff_ne]
      intro hcontra
      exact hnoveh v hv ⟨hx, hcontra⟩
  have hvehsplit : ({ startDB2 db1 c.id (pyUpper (pyStrip req.plate_number)) with
        orders := db1.orders ++
          [mkStartedOrder (startDB2 db1 c.id (pyUpper (pyStrip req.plate_number)))
            b req (pyUpper (pyStrip req.plate_number)) c.id db1.nextId]
        nextId := db1.nextId + 2 } : DB).vehicles.filter
      (fun v => iexact v.plate_number (pyUpper (pyStrip req.plate_number)) &&
        (vehicleBranch { startDB2 db1 c.id (pyUpper (pyStrip req.plate_number)) with
            orders := db1.orders ++
              [mkStartedOrder (startDB2 db1 c.id (pyUpper (pyStrip req.plate_number)))
                b req (pyUpper (pyStrip req.plate_number)) c.id db1.nextId]
            nextId := db1.nextId + 2 } v == some b)) =
      [startVehicle db1 c.id (pyUpper (pyStrip req.plate_number))] := by
    rw [show ({ startDB2 db1 c.id (pyUpper (pyStrip req.plate_number)) with
        orders := db1.orders ++
          [mkStartedOrder (startDB2 db1 c.id (pyUpper (pyStrip req.plate_number)))
            b req (pyUpper (pyStrip req.plate_number)) c.id db1.nextId]
        nextId := db1.nextId + 2 } : DB).vehicles =
      db1.vehicles ++ [startVehicle db1 c.id (pyUpper (pyStrip req.plate_number))] from rfl]
    rw [hveh, List.filter_append]
    rw [List.filter_eq_nil_iff.mpr (fun v hv => by rw [holdpred v hv]; exact Bool.false_ne_true)]
    rw [List.nil_append]
    have hvb : vehicleBranch { startDB2 db1 c.id (pyUpper (pyStrip req.plate_number)) with
        orders := db1.orders ++
          [mkStartedOrder (startDB2 db1 c.id (pyUpper (pyStrip req.plate_number)))
            b req (pyUpper (pyStrip req.plate_number)) c.id db1.nextId]
        nextId := db1.nextId + 2 }
        (startVehicle db1 c.id (pyUpper (pyStrip req.plate_number))) = some b := by
      unfold vehicleBranch
      rw [show (startVehicle db1 c.id (pyUpper (pyStrip req.plate_number))).customer_id = c.id
        from rfl]
      rw [hcustP c.id, hcid]
      simp [hbranch]
    have hpv : (iexact (startVehicle db1 c.id (pyUpper (pyStrip req.plate_number))).plate_number
        (pyUpper (pyStrip req.plate_number)) &&
        (vehicleBranch { startDB2 db1 c.id (pyUpper (pyStrip req.plate_number)) with
            orders := db1.orders ++
              [mkStartedOrder (startDB2 db1 c.id (pyUpper (pyStrip req.plate_number)))
                b req (pyUpper (pyStrip req.plate_number)) c.id db1.nextId]
            nextId := db1.nextId + 2 }
          (startVehicle db1 c.id (pyUpper (pyStrip req.plate_number))) == some b)) = true := by
      rw [show (startVehicle db1 c.id (pyUpper (pyStrip req.plate_number))).plate_number =
        pyUpper (pyStrip req.plate_number) from rfl]
      rw [iexact_self, hvb]
      simp
    simp [List.filter_cons, hpv]
  have hordsplit : ({ startDB2 db1 c.id (pyUpper (pyStrip req.plate_number)) with
        orders := db1.orders ++
          [mkStartedOrder (startDB2 db1 c.id (pyUpper (pyStrip req.plate_number)))
            b req (pyUpper (pyStrip req.plate_number)) c.id db1.nextId]
        nextId := db1.nextId + 2 } : DB).orders.filter
      (fun o => o.vehicle_id == some (startVehicle db1 c.id
          (pyUpper (pyStrip req.plate_number))).id && o.status == "created") =
      [mkStartedOrder (startDB2 db1 c.id (pyUpper (pyStrip req.plate_number)))
        b req (pyUpper (pyStrip req.plate_number)) c.id db1.nextId] := by
    rw [show ({ startDB2 db1 c.id (pyUpper (pyStrip req.plate_number)) with
        orders := db1.orders ++
          [mkStartedOrder (startDB2 db1 c.id (pyUpper (pyStrip req.plate_number)))
            b req (pyUpper (pyStrip req.plate_number)) c.id db1.nextId]
        nextId := db1.nextId + 2 } : DB).orders =
      db1.orders ++ [mkStartedOrder (startDB2 db1 c.id (pyUpper (pyStrip req.plate_number)))
        b req (pyUpper (pyStrip req.plate_number)) c.id db1.nextId] from rfl]
    rw [hord, List.filter_append]
    rw [List.filter_eq_nil_iff.mpr (fun o ho => by
      rw [show (startVehicle db1 c.id (pyUpper (pyStrip req.plate_number))).id = db1.nextId
        from rfl]
      intro hcond
      rw [Bool.and_eq_true, beq_iff_eq] at hcond
      have := (hwfo o ho).2 db1.nextId hcond.1
      omega)]
    rw [List.nil_append]
    rw [show (startVehicle db1 c.id (pyUpper (pyStrip req.plate_number))).id = db1.nextId
      from rfl]
    simp [List.filter_cons, mkStartedOrder_vehicle, mkStartedOrder_status]
  refine ⟨⟨_, _, _, rfl⟩, ?_, ?_, ?_⟩ <;>
  · simp only [api_start_order]
    rw [if_neg hplate]
    rw [if_neg (not_not_intro htype)]
    rw [hvehsplit]
    simp only [List.head?]
    rw [huse, hecid]
    simp only [Bool.not_false, Bool.true_and, idTruthy, Option.getD_none]
    rw [show ((0 : Nat) != 0) = false from rfl]
    simp only [Bool.not_false, if_true]
    unfold latestCreatedOrderFor
    rw [hordsplit]
    simp [List.insertionSort, List.orderedInsert, StartResp.orderId, mkStartedOrder,
      startDB2, startVehicle]

/-- Start-order request used by the C2 witness. -/
def c2req : StartReq :=
  { plate_number := "abc", order_type := "service", use_existing_customer := false
    existing_customer_id := none, service_selection := [], estimated_duration := none }

/-- C2 witness: the idempotence theorem applied to the empty database and the
plate `"abc"`. -/
theorem api_start_order_idempotent_witness :
    (∃ i n s, (api_start_order emptyDB 1 c2req).1 = .orderStarted i n s) ∧
    (∃ i n s, (api_start_order (api_start_order emptyDB 1 c2req).2 1 c2req).1 =
      .existingOrderFound i n s) ∧
    (api_start_order (api_start_order emptyDB 1 c2req).2 1 c2req).1.orderId =
      (api_start_order emptyDB 1 c2req).1.orderId ∧
    (api_start_order (api_start_order emptyDB 1 c2req).2 1 c2req).2 =
      (api_start_order emptyDB 1 c2req).2 :=
  api_start_order_idempotent emptyDB 1 c2req (by decide) (by decide) (by decide)
    rfl rfl (by decide)

/-! ## C8: duration estimation from the service selection -/

/-- Definition following the claim's words, for comparison with the source's
`serviceSelectionMinutes`: the sum of `estimated_minutes` over all ServiceType
and ServiceAddon records whose name exactly matches a selected name (no
activity filter). -/
def claimSelectionMinutes (db : DB) (sel : List String) : Nat :=
  ((db.service_types.filter (fun s => sel.contains s.name)).map
      (fun s => s.estimated_minutes.getD 0)).sum +
  ((db.service_addons.filter (fun a => sel.contains a.name)).map
      (fun a => a.estimated_minutes.getD 0)).sum

/-- Database with a single inactive service type for the C8 counterexample. -/
def c8dbInactive : DB :=
  { emptyDB with service_types :=
      [{ name := "Oil", estimated_minutes := some 30, is_active := false }] }

/-- Start-order request selecting the service `"Oil"`. -/
def c8req : StartReq :=
  { plate_number := "XYZ", order_type := "service", use_existing_customer := false
    existing_customer_id := none, service_selection := ["Oil"], estimated_duration := none }

/-- C8 counterexample: an inactive ServiceType named `"Oil"` with 30 estimated
minutes matches the selection by name, so the claim's sum over all records is
30 > 0 and demands `estimated_duration = 30`; the code filters service types
with `is_active=True` (line 139), finds a zero total, and stores the absent
caller value `None` instead. -/
theorem start_order_inactive_service_counterexample :
    claimSelectionMinutes c8dbInactive ["Oil"] = 30 ∧
    serviceSelectionMinutes c8dbInactive ["Oil"] = 0 ∧
    ((api_start_order c8dbInactive 1 c8req).2.orders.getLast?).map
      (fun o => o.estimated_duration) = some none := by
  refine ⟨?_, ?_, ?_⟩ <;> decide

/-- C8 (amended): when `api_start_order` creates a service-type order with a
non-empty `service_selection`, the order's `estimated_duration` is set to the
sum of `estimated_minutes` over the active ServiceType records and all
ServiceAddon records whose name exactly matches a selected name, whenever that
sum is positive. -/
theorem api_start_order_service_duration (db : DB) (b : Nat) (req : StartReq)
    (hwf : wfDB db = true)
    (hplate : pyUpper (pyStrip req.plate_number) ≠ "")
    (htype : req.order_type ∈ ["service", "sales", "inquiry"])
    (huse : req.use_existing_customer = false)
    (hecid : req.existing_customer_id = none)
    (hnoveh : ∀ v ∈ db.vehicles,
      ¬(iexact v.plate_number (pyUpper (pyStrip req.plate_number)) = true ∧
        vehicleBranch db v = some b))
    (hsel : req.service_selection ≠ [])
    (hservice : req.order_type = "service")
    (hsum : serviceSelectionMinutes db req.service_selection ≠ 0) :
    ((api_start_order db b req).2.orders.getLast?).map (fun o => o.estimated_duration) =
      some (some (Int.ofNat (serviceSelectionMinutes db req.service_selection))) := by
  obtain ⟨c, db1, hbranch, hle, hcid, hkeep, hveh, hord, hnow, hst, hsa, heq⟩ :=
    api_start_order_creates db b req hwf hplate htype huse hecid hnoveh
  rw [heq]
  simp only
  rw [List.getLast?_concat]
  rw [show ∀ (o : Order), Option.map (fun o => o.estimated_duration) (some o) =
    some o.estimated_duration from fun _ => rfl]
  have hcongr : serviceSelectionMinutes (startDB2 db1 c.id (pyUpper (pyStrip req.plate_number)))
      req.service_selection = serviceSelectionMinutes db req.service_selection := by
    unfold serviceSelectionMinutes
    rw [show (startDB2 db1 c.id (pyUpper (pyStrip req.plate_number))).service_types =
      db1.service_types from rfl]
    rw [show (startDB2 db1 c.id (pyUpper (pyStrip req.plate_number))).service_addons =
      db1.service_addons from rfl]
    rw [hst, hsa]
  have hcond1 : (!req.service_selection.isEmpty && (req.order_type == "service")) = true := by
    rw [hservice]
    rw [List.isEmpty_eq_false.mpr hsel]
    rfl
  have hfield : (mkStartedOrder (startDB2 db1 c.id (pyUpper (pyStrip req.plate_number)))
      b req (pyUpper (pyStrip req.plate_number)) c.id db1.nextId).estimated_duration =
      some (Int.ofNat (serviceSelectionMinutes db req.service_selection)) := by
    show (if intTruthy (if !req.service_selection.isEmpty && (req.order_type == "service") then
        if serviceSelectionMinutes (startDB2 db1 c.id (pyUpper (pyStrip req.plate_number)))
            req.service_selection ≠ 0 then
          some (Int.ofNat (serviceSelectionMinutes
            (startDB2 db1 c.id (pyUpper (pyStrip req.plate_number))) req.service_selection))
        else req.estimated_duration
      else req.estimated_duration) then
        (if !req.service_selection.isEmpty && (req.order_type == "service") then
          if serviceSelectionMinutes (startDB2 db1 c.id (pyUpper (pyStrip req.plate_number)))
              req.service_selection ≠ 0 then
            some (Int.ofNat (serviceSelectionMinutes
              (startDB2 db1 c.id (pyUpper (pyStrip req.plate_number))) req.service_selection))
          else req.estimated_duration
        else req.estimated_duration)
      else none) = some (Int.ofNat (serviceSelectionMinutes db req.service_selection))
    rw [hcongr]
    rw [if_pos hcond1, if_pos hsum]
    have htr : intTruthy (some (Int.ofNat (serviceSelectionMinutes db req.service_selection))) =
        true := by
      simp [intTruthy, Int.ofNat_eq_zero, hsum]
    rw [htr]
    simp
  rw [hfield]

/-- Database with one active service type and one addon for the C8 witness. -/
def c8dbActive : DB :=
  { emptyDB with
      service_types := [{ name := "Oil", estimated_minutes := some 30, is_active := true }]
      service_addons := [{ name := "Wax", estimated_minutes := some 15, is_active := true }] }

/-- C8 witness: the amended theorem applied to a database with the active
service `"Oil"` (30 minutes) and the addon `"Wax"` (15 minutes), both
selected. -/
theorem api_start_order_service_duration_witness :
    ((api_start_order c8dbActive 1
        { plate_number := "XYZ", order_type := "service", use_existing_customer := false
          existing_customer_id := none, service_selection := ["Oil", "Wax"]
          estimated_duration := none }).2.orders.getLast?).map
      (fun o => o.estimated_duration) =
      some (some (Int.ofNat (serviceSelectionMinutes c8dbActive ["Oil", "Wax"]))) :=
  api_start_order_service_duration c8dbActive 1 _ (by decide) (by decide) (by decide)
    rfl rfl (by decide) (by decide) rfl (by decide)

end Tracker
